import Mathlib

/-!
Verification of the Amazon Q Code Transformation ("Gumby") job-lifecycle logic.

This file gives a shallow embedding, in Lean 4, of the orchestration code in
`packages/core/src/codewhisperer/service/transformByQ/transformApiHandler.ts`
and of the project-validation code (`getOpenProjects`, `validateOpenProjects`)
and error classes of the same feature.

Modelling conventions:
* The mutable global `transformByQState` object, together with the per-run job
  progress map, is embedded as an explicit state record `Sim` that every
  operation threads through.  Observable side effects (telemetry status-change
  events, sleeps, subprocess spawns, backend RPC calls, archive writes, ...)
  are recorded in an event trace inside `Sim`.
* External collaborators (the backend RPC client, the filesystem, the zip
  library, subprocesses, the user-facing dialog) are modelled as oracles in an
  environment record `Env`; each kind of call reads the oracle at the current
  value of a dedicated call counter and bumps the counter.  Network calls are
  modelled as succeeding (the RPC client is a black-box collaborator); the
  error paths that the orchestrator itself creates (cancellation, failure
  states, timeout, size limit, rejected authorization, null exit code) are
  modelled faithfully.
* JavaScript exceptions are embedded as `Except GErr`; each distinct error
  class of the source becomes a distinct constructor of `GErr`.
* The `while (true)` poll loop is embedded with a fuel parameter; fuel
  exhaustion is represented by the artificial result `GErr.outOfFuel`, which
  is unreachable whenever the polling interval is positive.
-/

/-- JavaScript string truthiness for an optional string: `undefined` and the
empty string are falsy. -/
def strTruthy : Option String → Bool
  | none => false
  | some s => s ≠ ""

/-- Does the character list `p` occur as a leading segment of `l`? -/
def charsStartWith : List Char → List Char → Bool
  | [], _ => true
  | _ :: _, [] => false
  | p :: ps, c :: cs => p == c && charsStartWith ps cs

/-- Does the character list `sub` occur contiguously inside `l`?  This models
JavaScript `String.prototype.includes`. -/
def charsContain (sub : List Char) : List Char → Bool
  | [] => charsStartWith sub []
  | c :: cs => charsStartWith sub (c :: cs) || charsContain sub cs

/-- JavaScript `includes` on strings. -/
def strIncludes (s sub : String) : Bool :=
  charsContain sub.data s.data

/-- JavaScript `endsWith` on strings. -/
def strEndsWith (s suffix : String) : Bool :=
  charsStartWith suffix.data.reverse s.data.reverse

/-- Index of the first occurrence of `sub` inside `l`, as in JavaScript
`String.prototype.indexOf` (which returns `-1` when absent). -/
def charsIndexOf (sub : List Char) : List Char → Int
  | [] => if charsStartWith sub [] then 0 else -1
  | c :: cs =>
    if charsStartWith sub (c :: cs) then 0
    else
      let r := charsIndexOf sub cs
      if r == -1 then -1 else r + 1

/-- JavaScript whitespace test used by `String.prototype.trim`. -/
def jsIsSpace (c : Char) : Bool :=
  c == ' ' || c == '\n' || c == '\t' || c == '\r'

/-- JavaScript `trim`. -/
def strTrim (s : String) : String :=
  ⟨(s.data.dropWhile jsIsSpace).reverse.dropWhile jsIsSpace |>.reverse⟩

/-- JavaScript `slice(a, b)` on a string for non-negative bounds. -/
def strSlice (s : String) (a b : Nat) : String :=
  ⟨(s.data.drop a).take (b - a)⟩

/-- Build systems recognized by the feature (`BuildSystem` of the data model). -/
inductive BuildSystem
  | maven
  | gradle
  | unknown
deriving DecidableEq, Repr

/-- Per-step progress marker (`StepProgress` of the data model). -/
inductive StepProgress
  | notStarted
  | pending
  | succeeded
  | failed
deriving DecidableEq, Repr

/-- JDK versions the validator can report (`JDKVersion` of the data model). -/
inductive JDKVersion
  | jdk8
  | jdk11
  | unsupported
deriving DecidableEq, Repr

/-- The distinct error classes raised by the embedded code.  `genericError`
models a plain JavaScript `new Error(message)`; the other constructors model
the dedicated error classes of `amazonqGumby/errors.ts` and the models file. -/
inductive GErr
  | transformByQStopped
  | jobStopped (requestId : String)
  | zipExceedsSizeLimit
  | noOpenProjects
  | noJavaProjectsFound
  | noMavenOrGradleJavaProjectsFound
  | genericError (message : String)
  | outOfFuel
deriving DecidableEq, Repr

/-- Message carried by each error, as produced by the corresponding
JavaScript error constructor. -/
def GErr.message : GErr → String
  | .transformByQStopped => "Transform by Q stopped"
  | .jobStopped _ => "Job was rejected, stopped, or failed"
  | .zipExceedsSizeLimit => "Zip file exceeds size limit"
  | .noOpenProjects => "No Java projects found since no projects are open"
  | .noJavaProjectsFound => "No Java projects found"
  | .noMavenOrGradleJavaProjectsFound => "No valid Maven or Gradle build file found"
  | .genericError m => m
  | .outOfFuel => "out of fuel"

/-- Observable actions recorded while the embedded code runs. -/
inductive Event
  | cancelCheck (flag : Bool)
  | observedStatus (status : String)
  | emittedStatusChange (previous current : String)
  | slept (milliseconds : Nat)
  | invokedSubProtocol
  | calledGetPlan
  | downloadedArtifact (artifactId : String)
  | copiedProjectDir (src dest : String)
  | appliedPatch (patchFile : String)
  | openedDocument (file : String)
  | promptedAuthorization
  | calledStopTransform
  | ranPostJobCleanup
  | calledBackendStop (jobId : String)
  | spawnedBuild (command : String)
  | wroteBuildLogs (dir : String)
  | wroteManifestFile (file : String)
  | wroteZip (file : String)
  | calledCreateUploadUrl
  | uploadedToS3 (fileName : String)
  | calledResume (userActionStatus : String)
  | sourceWalkDone (dir : String)
  | depWalkDone (dir : String)
  | addedZipEntry (file : String)
  | manifestAdded
  | logFileAdded
  | firedTransformationFinished
  | showedErrorMessage (msg : String)
  | removedDir (dir : String)
deriving DecidableEq, Repr

/-- Response of the backend `GetTransformation` call, restricted to the fields
the orchestrator reads (`transformationJob.status`, `transformationJob.reason`,
`$response.requestId`). -/
structure GetTransformationResponse where
  status : String
  reason : Option String
  requestId : String
deriving DecidableEq, Repr

/-- One download artifact of a progress update
(`TransformationProgressUpdate.downloadArtifacts[_]`). -/
structure DownloadArtifact where
  downloadArtifactType : Option String
  downloadArtifactId : Option String
deriving DecidableEq, Repr

/-- One progress update of a transformation step. -/
structure ProgressUpdate where
  name : String
  status : Option String
  description : Option String
  downloadArtifacts : Option (List DownloadArtifact)
deriving DecidableEq, Repr

/-- One transformation step of the backend plan. -/
structure TransformationStep where
  name : String
  progressUpdates : Option (List ProgressUpdate)
deriving DecidableEq, Repr

/-- Response of `CreateUploadUrl`, restricted to the fields read. -/
structure UploadUrlResponse where
  uploadId : String
  requestId : String
deriving DecidableEq, Repr

/-- Manifest of a downloaded client-instructions artifact. -/
structure ClientInstructionsManifest where
  capability : String
  buildCommand : String
  diffFileName : String
deriving DecidableEq, Repr

/-- Outcome of the modal authorization dialog: `yes`, `no`, or dismissing the
dialog (which yields `undefined` in the source). -/
inductive UserChoice
  | yes
  | no
  | dismissed
deriving DecidableEq, Repr

/-- Result of a `spawnSync` invocation, restricted to the fields the code
reads.  A `none` status models the JavaScript `null` exit status. -/
structure SpawnResult where
  status : Option Int
  stdout : String
  stderr : String
deriving DecidableEq, Repr

/-- Oracles for every external collaborator.  Each family of calls is indexed
by its own call counter held in `Sim`.  `pollingIntervalSeconds` and
`timeoutSeconds` stand for the fixed constants
`CodeWhispererConstants.transformationJobPollingIntervalSeconds` and
`transformationJobTimeoutSeconds` (the constants module is not part of the
given sources, so the two are carried as parameters here). -/
structure Env where
  cancelled : Nat → Bool
  pollingIntervalSeconds : Nat
  timeoutSeconds : Nat
  responses : Nat → GetTransformationResponse
  planSteps : Nat → List TransformationStep
  planRequestId : Nat → String
  userChoice : Nat → UserChoice
  spawnResult : Nat → SpawnResult
  stopResult : Nat → Except String (Option String)
  uploadResponse : Nat → UploadUrlResponse
  resumeStatus : Nat → Option String
  clientManifest : Nat → ClientInstructionsManifest
  sha256Of : String → String
  tmpdir : String
  walkFiles : String → Bool → List String
  isDirectory : String → Bool
  fileSize : String → Nat
  dirExists : String → Bool
  logFilePath : String
  zipWrittenSize : Nat

/-- The explicit state threaded through every operation: the fields of the
shared `transformByQState` session object that the embedded code reads or
writes, the job-plan progress entries, the event trace, and one call counter
per oracle family of `Env`. -/
structure Sim where
  polledJobStatus : String
  jobId : String
  waitingForClientSideBuildAuthorization : Bool
  clientSideBuildSelection : String
  buildSystem : BuildSystem
  buildSystemCommand : String
  javaTargetPath : String
  projectPath : String
  projectCopyFilePath : String
  jobFailureMetadata : String
  jobFailureErrorNotification : String
  jobFailureErrorChatMessage : String
  localBuildErrorLog : List String
  buildCodeProgress : StepProgress
  uploadCodeProgress : StepProgress
  trace : List Event
  checkCount : Nat
  fetchCount : Nat
  planCount : Nat
  promptCount : Nat
  spawnCount : Nat
  stopCount : Nat
  uploadCount : Nat
  resumeCount : Nat
  downloadCount : Nat
deriving DecidableEq, Repr

/-- Append one observable event to the trace. -/
def Sim.emit (s : Sim) (e : Event) : Sim :=
  { s with trace := s.trace ++ [e] }

/-- A neutral starting state: job not started, no pending authorization,
empty trace, all call counters at zero. -/
def initialSim : Sim where
  polledJobStatus := "NOT_STARTED"
  jobId := ""
  waitingForClientSideBuildAuthorization := false
  clientSideBuildSelection := ""
  buildSystem := BuildSystem.maven
  buildSystemCommand := "mvn"
  javaTargetPath := "/opt/jdk17"
  projectPath := "/home/user/project"
  projectCopyFilePath := "/tmp/projectCopy"
  jobFailureMetadata := ""
  jobFailureErrorNotification := ""
  jobFailureErrorChatMessage := ""
  localBuildErrorLog := []
  buildCodeProgress := StepProgress.notStarted
  uploadCodeProgress := StepProgress.notStarted
  trace := []
  checkCount := 0
  fetchCount := 0
  planCount := 0
  promptCount := 0
  spawnCount := 0
  stopCount := 0
  uploadCount := 0
  resumeCount := 0
  downloadCount := 0

/-- Modelled from the spec: `CodeWhispererConstants.validStatesForBuildSucceeded`
(the constants module is missing from the sources).  Statuses from which the
backend build is known to have succeeded — every post-build status of the §4.2
state machine. -/
def validStatesForBuildSucceeded : List String :=
  ["PREPARED", "PLANNING", "PLANNED", "TRANSFORMING", "TRANSFORMED",
   "PARTIALLY_COMPLETED", "COMPLETED"]

/-- Modelled from the spec: `CodeWhispererConstants.validStatesForPlanGenerated`
(constants module missing).  Statuses indicating a plan has been generated;
the source comment at the use site says "plan is generated (status =
transforming)". -/
def validStatesForPlanGenerated : List String :=
  ["PLANNED", "TRANSFORMING"]

/-- Modelled from the spec: `CodeWhispererConstants.pausedStates` (constants
module missing).  The recognized "paused, needs user" statuses of §4.2. -/
def pausedStates : List String :=
  ["PAUSED"]

/-- Modelled from the spec: `CodeWhispererConstants.failureStates` (constants
module missing).  The recognized terminal-failure statuses of §4.2. -/
def failureStates : List String :=
  ["FAILED", "STOPPING", "STOPPED", "REJECTED"]

/-- Modelled from the spec: the `TransformByQStatus.WaitingUserInput` value
written to the polled status when a paused state is observed. -/
def waitingUserInputStatus : String := "WaitingUserInput"

/-- Modelled from the spec: dedicated user-facing notification for a breached
monthly lines-of-code quota
(`CodeWhispererConstants.failedToStartJobMonthlyLimitNotification`). -/
def failedToStartJobMonthlyLimitNotification : String :=
  "Monthly aggregated limit reached"

/-- Modelled from the spec: dedicated chat message for a breached monthly
lines-of-code quota. -/
def failedToStartJobMonthlyLimitChatMessage : String :=
  "Monthly aggregated limit reached for chat"

/-- Modelled from the spec: dedicated notification for a breached per-job
lines-of-code limit. -/
def failedToStartJobLinesLimitNotification : String :=
  "Lines of Code limit reached"

/-- Modelled from the spec: dedicated chat message for a breached per-job
lines-of-code limit. -/
def failedToStartJobLinesLimitChatMessage : String :=
  "Lines of Code limit reached for chat"

/-- Modelled from the spec: the generic failure chat message prefix
(`CodeWhispererConstants.failedToCompleteJobGenericChatMessage`). -/
def failedToCompleteJobGenericChatMessage : String :=
  "Sorry, I couldn\x27t complete the transformation:"

/-- Modelled from the spec: the generic failure notification prefix. -/
def failedToCompleteJobGenericNotification : String :=
  "The transformation job could not be completed:"

/-- Modelled from the spec: the fixed upload archive size ceiling
(`CodeWhispererConstants.uploadZipSizeLimitInBytes`), a 2 GB payload ceiling. -/
def uploadZipSizeLimitInBytes : Nat := 2000000000

/-- Modelled from the spec: the user-facing notification shown when the
project archive is too large. -/
def projectSizeTooLargeNotification : String :=
  "Your project is too large to transform"

/-- Modelled from the spec: the chat message shown when the project archive is
too large. -/
def projectSizeTooLargeChatMessage : String :=
  "Your project is too large to transform (chat)"

/-- Modelled from the spec: `localizedText.yes` / `localizedText.no`, the two
button captions of the modal authorization dialog, mapped from `UserChoice`
(`dismissed` models the `undefined` result of a closed dialog). -/
def choiceText : UserChoice → Option String
  | .yes => some "Yes"
  | .no => some "No"
  | .dismissed => none

/-- The `uploadContext` passed for subsequent (HIL / client-build-result)
uploads, restricted to the fields the embedded code constructs. -/
structure UploadContext where
  jobId : String
  uploadArtifactType : String
deriving DecidableEq, Repr

/-- Parsed client instructions returned by `extractClientInstructions`. -/
structure ClientInstructions where
  capability : String
  buildCommand : String
  patchFilePath : String
deriving DecidableEq, Repr

/-- The record built by `getClientInstructionArtifactId` when a pending client
action is found (`IsWaitingForClientAction`, `ClientInstructionArtifactId`). -/
structure TransformationStatusInfo where
  isWaitingForClientAction : Bool
  clientInstructionArtifactId : Option String
deriving DecidableEq, Repr

/-- Embedding of `throwIfCancelled`: consult the shared cancellation flag (an
oracle read at the current check counter, since the UI may flip the flag at
any time) and raise `TransformByQStoppedError` when it is set. -/
def throwIfCancelled (env : Env) (s : Sim) : Except GErr Unit × Sim :=
  let flag := env.cancelled s.checkCount
  let s := { s with checkCount := s.checkCount + 1 }
  let s := s.emit (.cancelCheck flag)
  if flag then (.error .transformByQStopped, s) else (.ok (), s)

/-- Embedding of `stopJob`: an empty (falsy) job id returns immediately;
otherwise the backend stop operation is invoked, a returned request id is
recorded in the failure metadata, and a backend failure is re-raised as the
generic `Stop job failed` error. -/
def stopJob (env : Env) (jobId : String) (s : Sim) : Except GErr Unit × Sim :=
  if jobId = "" then (.ok (), s)
  else
    let r := env.stopResult s.stopCount
    let s := { s with stopCount := s.stopCount + 1 }
    let s := s.emit (.calledBackendStop jobId)
    match r with
    | .error _ => (.error (.genericError "Stop job failed"), s)
    | .ok rid =>
      if strTruthy rid then
        (.ok (), { s with jobFailureMetadata := " (request ID: " ++ rid.getD "" ++ ")" })
      else (.ok (), s)

/-- Embedding of `resumeTransformationJob` (network call modelled as
succeeding; the returned transformation status comes from the oracle). -/
def resumeTransformationJob (env : Env) (_jobId userActionStatus : String) (s : Sim) :
    Except GErr (Option String) × Sim :=
  let r := env.resumeStatus s.resumeCount
  let s := { s with resumeCount := s.resumeCount + 1 }
  let s := s.emit (.calledResume userActionStatus)
  (.ok r, s)

/-- Modelled from the spec: `encodeHTML` of `shared/utilities/textUtilities`
(not among the sources) escapes the five HTML special characters. -/
def encodeHTML (s : String) : String :=
  ⟨s.data.flatMap (fun c =>
    if c = '&' then "&amp;".data
    else if c = '<' then "&lt;".data
    else if c = '>' then "&gt;".data
    else if c = '"' then "&quot;".data
    else if c = '\'' then "&#39;".data
    else [c])⟩

/-- Embedding of `uploadArtifactToS3`: a cancellation check immediately before
the transfer, then the PUT (modelled as succeeding). -/
def uploadArtifactToS3 (env : Env) (fileName : String) (_resp : UploadUrlResponse)
    (_sha256 : String) (s : Sim) : Except GErr Unit × Sim :=
  match throwIfCancelled env s with
  | (.error e, s) => (.error e, s)
  | (.ok _, s) => (.ok (), s.emit (.uploadedToS3 fileName))

/-- Embedding of `uploadPayload`: checksum, cancellation check, upload-slot
request, transfer; only the initial upload (no `uploadContext`) records the
returned upload id as the job id. -/
def uploadPayload (env : Env) (payloadFileName : String) (uploadContext : Option UploadContext)
    (s : Sim) : Except GErr String × Sim :=
  let sha256 := env.sha256Of payloadFileName
  match throwIfCancelled env s with
  | (.error e, s) => (.error e, s)
  | (.ok _, s) =>
    let resp := env.uploadResponse s.uploadCount
    let s := { s with uploadCount := s.uploadCount + 1 }
    let s := s.emit .calledCreateUploadUrl
    let s := if resp.requestId ≠ "" then
        { s with jobFailureMetadata := " (request ID: " ++ resp.requestId ++ ")" }
      else s
    match uploadArtifactToS3 env payloadFileName resp sha256 s with
    | (.error e, s) => (.error (.genericError e.message), s)
    | (.ok _, s) =>
      let s := if uploadContext.isNone then { s with jobId := encodeHTML resp.uploadId } else s
      let s := { s with uploadCodeProgress := .succeeded }
      (.ok resp.uploadId, s)

/-- Embedding of `getTransformationSteps`: optional throttling sleep, then the
`GetTransformationPlan` call (modelled as succeeding), recording a non-empty
request id in the failure metadata. -/
def getTransformationSteps (env : Env) (_jobId : String) (handleThrottleFlag : Bool)
    (s : Sim) : Except GErr (List TransformationStep) × Sim :=
  let s := if handleThrottleFlag then s.emit (.slept 2000) else s
  let steps := env.planSteps s.planCount
  let rid := env.planRequestId s.planCount
  let s := { s with planCount := s.planCount + 1 }
  let s := s.emit .calledGetPlan
  let s := if rid ≠ "" then { s with jobFailureMetadata := " (request ID: " ++ rid ++ ")" } else s
  (.ok steps, s)

/-- The first entry of a progress update's `downloadArtifacts` list
(`progressUpdates[j].downloadArtifacts?.[0]`). -/
def firstArtifact (pu : ProgressUpdate) : Option DownloadArtifact :=
  pu.downloadArtifacts.bind List.head?

/-- The selection condition of `findDownloadArtifactStep`: a truthy first
artifact type, or a truthy first artifact id together with an
`AWAITING_CLIENT_ACTION` update status. -/
def downloadArtifactCondition (pu : ProgressUpdate) : Bool :=
  strTruthy ((firstArtifact pu).bind DownloadArtifact.downloadArtifactType) ||
    (strTruthy ((firstArtifact pu).bind DownloadArtifact.downloadArtifactId) &&
      pu.status == some "AWAITING_CLIENT_ACTION")

/-- Embedding of `findDownloadArtifactStep`: the first step and progress
update satisfying `downloadArtifactCondition`, scanning steps and updates in
order. -/
def findDownloadArtifactStep (transformationSteps : List TransformationStep) :
    Option (TransformationStep × ProgressUpdate) :=
  transformationSteps.findSome? (fun step =>
    match step.progressUpdates with
    | none => none
    | some progressUpdates =>
      if progressUpdates.length ≠ 0 then
        (progressUpdates.find? downloadArtifactCondition).map (fun pu => (step, pu))
      else none)

/-- Embedding of `downloadAndExtractResultArchive` (download and unzip
modelled as succeeding, recorded in the trace). -/
def downloadAndExtractResultArchive (env : Env) (jobId : String)
    (downloadArtifactId : Option String) (_pathToArchiveDir : String) (s : Sim) :
    Except GErr Unit × Sim :=
  let _ := env
  let s := { s with downloadCount := s.downloadCount + 1 }
  (.ok (), s.emit (.downloadedArtifact (downloadArtifactId.getD jobId)))

/-- Embedding of `extractClientInstructions`: download and extract the
client-instructions artifact, then read `capability`, `build_command` and the
patch-file path out of its manifest (the manifest contents come from the
oracle). -/
def extractClientInstructions (env : Env) (jobId clientInstructionsArtifactId : String)
    (s : Sim) : Except GErr ClientInstructions × Sim :=
  let exportZipPath := env.tmpdir ++ "/client_instructions_" ++ clientInstructionsArtifactId ++ ".zip"
  let manifest := env.clientManifest s.downloadCount
  match downloadAndExtractResultArchive env jobId (some clientInstructionsArtifactId) exportZipPath s with
  | (.error e, s) => (.error e, s)
  | (.ok _, s) =>
    (.ok { capability := manifest.capability
           buildCommand := manifest.buildCommand
           patchFilePath := exportZipPath ++ "/" ++ manifest.diffFileName }, s)

/-- Embedding of `writeAndShowBuildLogs`: write the captured build logs into a
scratch directory and open them in the editor; returns the directory. -/
def writeAndShowBuildLogs (env : Env) (clientInstructionArtifactId _buildLogs : String)
    (s : Sim) : String × Sim :=
  let buildLogsDir := env.tmpdir ++ "/build_output_" ++ clientInstructionArtifactId
  let s := s.emit (.wroteBuildLogs buildLogsDir)
  let s := s.emit (.openedDocument (buildLogsDir ++ "/build-output.log"))
  (buildLogsDir, s)

/-- Embedding of `updateManifestFile`: write the client-build-result manifest
(exit code, capability, log file name) to disk. -/
def updateManifestFile (_exitCode : Int) (manifestFilePath : String) (s : Sim) : Sim :=
  s.emit (.wroteManifestFile manifestFilePath)

/-- Modelled from the spec: `stopTransformByQ` (its defining module,
`commands/startTransformByQ.ts`, is not among the sources).  §4.2 step 7: on a
stop request, call the backend stop operation, then run post-job cleanup
unconditionally, even if the stop call fails. -/
def stopTransformByQ (env : Env) (jobId : String) (s : Sim) : Sim :=
  let s := s.emit .calledStopTransform
  match stopJob env jobId s with
  | (_, s) => s.emit .ranPostJobCleanup

/-- The part of `runClientSideBuild` after the authorization gate: clear the
waiting flag, spawn the build subprocess, log a non-zero exit, write and show
the build logs, and, when the exit code is not null, package and upload the
client-build-result artifact and resume the job with outcome `COMPLETED`; a
null exit code raises an error. -/
def runClientSideBuildAfterAuth (env : Env) (clientInstructionArtifactId baseCommand : String)
    (args : List String) (s : Sim) : Except GErr Unit × Sim :=
  let s := { s with waitingForClientSideBuildAuthorization := false }
  let argString := String.intercalate " " args
  let spawnRes := env.spawnResult s.spawnCount
  let s := { s with spawnCount := s.spawnCount + 1 }
  let s := s.emit (.spawnedBuild baseCommand)
  let s := if spawnRes.status ≠ some 0 then
      { s with localBuildErrorLog := s.localBuildErrorLog ++
          [baseCommand ++ " " ++ argString ++ " failed: \n " ++ spawnRes.stderr ++ "\n" ++ spawnRes.stdout] }
    else s
  let (buildLogsDir, s) := writeAndShowBuildLogs env clientInstructionArtifactId spawnRes.stdout s
  match spawnRes.status with
  | some code =>
    let s := updateManifestFile code (buildLogsDir ++ "/manifest.json") s
    let s := s.emit (.wroteZip (buildLogsDir ++ ".zip"))
    let uploadContext : UploadContext := { jobId := s.jobId, uploadArtifactType := "ClientBuildResult" }
    match uploadPayload env (buildLogsDir ++ ".zip") (some uploadContext) s with
    | (.error e, s) => (.error e, s)
    | (.ok _, s) =>
      match resumeTransformationJob env s.jobId "COMPLETED" s with
      | (.error e, s) => (.error e, s)
      | (.ok _, s) => (.ok (), s)
  | none => (.error (.genericError (baseCommand ++ " " ++ argString ++ "  exit code is null")), s)

/-- The body of `runClientSideBuild` (the function run under the telemetry
wrapper): resolve the build command and arguments, run the interactive
authorization gate when `Verify Each Iteration` is selected and no
authorization is already pending (declining stops the job and raises the
rejected-verification error; dismissing the dialog keeps the waiting flag set
and returns), then hand over to `runClientSideBuildAfterAuth`. -/
def runClientSideBuildBody (env : Env) (clientInstructionArtifactId : String) (s : Sim) :
    Except GErr Unit × Sim :=
  let baseCommand := s.buildSystemCommand
  let s := { s with localBuildErrorLog := s.localBuildErrorLog ++ ["Running local build with " ++ baseCommand] }
  let args : List String :=
    if s.buildSystem = BuildSystem.maven then ["test"] else ["TO-DO:something-for-gradle"]
  if s.clientSideBuildSelection = "Verify Each Iteration" &&
      !s.waitingForClientSideBuildAuthorization then
    let s := { s with waitingForClientSideBuildAuthorization := true }
    let choice := env.userChoice s.promptCount
    let s := { s with promptCount := s.promptCount + 1 }
    let s := s.emit .promptedAuthorization
    if choiceText choice == some "No" then
      let s := { s with waitingForClientSideBuildAuthorization := false }
      let s := stopTransformByQ env s.jobId s
      (.error (.genericError
        "Cannot perform intermediate client-side build since intermediate verification prompt was rejected"), s)
    else if choiceText choice == none then
      (.ok (), { s with waitingForClientSideBuildAuthorization := true })
    else
      runClientSideBuildAfterAuth env clientInstructionArtifactId baseCommand args s
  else
    runClientSideBuildAfterAuth env clientInstructionArtifactId baseCommand args s

/-- Embedding of `runClientSideBuild`: run the body and wrap any raised error
in the single `Client-side build failed` error. -/
def runClientSideBuild (env : Env) (_modulePath clientInstructionArtifactId : String)
    (s : Sim) : Except GErr Unit × Sim :=
  match runClientSideBuildBody env clientInstructionArtifactId s with
  | (.error e, s) => (.error (.genericError ("Client-side build failed: " ++ e.message)), s)
  | (.ok u, s) => (.ok u, s)

/-- Embedding of `processClientInstructions`: copy the project tree to a
scratch location, apply the downloaded patch to the copy, open the patch in
the editor, then run the client-side build on the patched copy (an error is
wrapped as `Client-side build failed`). -/
def processClientInstructions (env : Env) (_jobid : String) (ci : ClientInstructions)
    (clientInstructionArtifactId : String) (s : Sim) : Except GErr Unit × Sim :=
  let destinationPath := env.tmpdir ++ "/originalCopy"
  let s := s.emit (.copiedProjectDir s.projectPath destinationPath)
  let s := s.emit (.appliedPatch ci.patchFilePath)
  let s := s.emit (.openedDocument ci.patchFilePath)
  match runClientSideBuild env s.projectCopyFilePath clientInstructionArtifactId s with
  | (.error e, s) => (.error (.genericError ("Client-side build failed: " ++ e.message)), s)
  | (.ok _, s) => (.ok (), s)

/-- Embedding of `getClientInstructionArtifactId`: sleep, fetch the plan steps
for step-by-step status, locate the download-artifact step; when its progress
update is `AWAITING_CLIENT_ACTION`, insist on a `CLIENT_INSTRUCTIONS` artifact
type and return the artifact id; otherwise return `undefined`. -/
def getClientInstructionArtifactId (env : Env) (jobId : String) (s : Sim) :
    Except GErr (Option TransformationStatusInfo) × Sim :=
  let s := s.emit (.slept (env.pollingIntervalSeconds * 1000))
  match getTransformationSteps env jobId false s with
  | (.error e, s) => (.error e, s)
  | (.ok plan_status, s) =>
    let found := findDownloadArtifactStep plan_status
    let progressUpdate := found.map Prod.snd
    if (progressUpdate.bind ProgressUpdate.status) == some "AWAITING_CLIENT_ACTION" then
      let artifact := progressUpdate.bind firstArtifact
      let ty := artifact.bind DownloadArtifact.downloadArtifactType
      if ty ≠ some "CLIENT_INSTRUCTIONS" then
        (.error (.genericError ("Received unexpected downloadArtifactType: " ++
          ty.getD "undefined" ++ "for jobId: " ++ jobId)), s)
      else
        (.ok (some { isWaitingForClientAction := true
                     clientInstructionArtifactId := artifact.bind DownloadArtifact.downloadArtifactId }), s)
    else (.ok none, s)

/-- Embedding of `processAwaitingClientActionStatus` (the AWAITING_CLIENT_ACTION
sub-protocol): cancellation check, sleep, fetch the client-instruction
artifact id; when a client action is pending, download and extract the client
instructions and process them (any error there surfaces as a single
`process client instructions failed` error). -/
def processAwaitingClientActionStatus (env : Env) (jobId : String) (s : Sim) :
    Except GErr Unit × Sim :=
  let s := s.emit .invokedSubProtocol
  match throwIfCancelled env s with
  | (.error e, s) => (.error e, s)
  | (.ok _, s) =>
    let s := s.emit (.slept (env.pollingIntervalSeconds * 1000))
    match getClientInstructionArtifactId env jobId s with
    | (.error e, s) => (.error e, s)
    | (.ok none, s) => (.ok (), s)
    | (.ok (some info), s) =>
      if info.isWaitingForClientAction then
        if !strTruthy info.clientInstructionArtifactId then
          (.error (.genericError "Failed to get client instruction artifact ID"), s)
        else
          let s := s.emit (.slept (env.pollingIntervalSeconds * 1000))
          match extractClientInstructions env jobId (info.clientInstructionArtifactId.getD "") s with
          | (.error e, s) => (.error e, s)
          | (.ok ci, s) =>
            let s := s.emit (.slept (env.pollingIntervalSeconds * 1000))
            match processClientInstructions env jobId ci (info.clientInstructionArtifactId.getD "") s with
            | (.error e, s) =>
              (.error (.genericError ("process client instructions failed: " ++ e.message)), s)
            | (.ok _, s) => (.ok (), s)
      else (.ok (), s)

/-- Embedding of the classification of the optional failure-reason text inside
the poll loop (lines 618-643 of `transformApiHandler.ts`): a reason containing
the monthly-limit substring gets the dedicated monthly-limit messages, one
containing the per-job-limit substring gets the dedicated lines-limit
messages, anything else gets the generic messages with the reason appended. -/
def setJobFailureMessages (errorMessage : String) (s : Sim) : Sim :=
  if strIncludes errorMessage "Monthly aggregated Lines of Code limit breached" then
    { s with jobFailureErrorNotification := failedToStartJobMonthlyLimitNotification
             jobFailureErrorChatMessage := failedToStartJobMonthlyLimitChatMessage }
  else if strIncludes errorMessage "Lines of Code limit breached for job" then
    { s with jobFailureErrorNotification := failedToStartJobLinesLimitNotification
             jobFailureErrorChatMessage := failedToStartJobLinesLimitChatMessage }
  else
    { s with jobFailureErrorChatMessage := failedToCompleteJobGenericChatMessage ++ " " ++ errorMessage
             jobFailureErrorNotification := failedToCompleteJobGenericNotification ++ " " ++ errorMessage }

/-- The per-response bookkeeping of a poll iteration (lines 602-643 of the
source): record the observation, mark the backend build succeeded on a
post-build status, emit a status-change event when the status differs from the
previously observed one, store the new polled status, and classify an attached
failure reason. -/
def recordStatusObservation (response : GetTransformationResponse) (s : Sim) : Sim :=
  let status := response.status
  let s := s.emit (.observedStatus status)
  let s := if validStatesForBuildSucceeded.contains status then
      { s with buildCodeProgress := .succeeded }
    else s
  let s := if status ≠ s.polledJobStatus then
      s.emit (.emittedStatusChange s.polledJobStatus status)
    else s
  let s := { s with polledJobStatus := status }
  match response.reason with
  | some errorMessage =>
    { setJobFailureMessages errorMessage s with
        jobFailureMetadata := " (request ID: " ++ response.requestId ++ ")" }
  | none => s

/-- The tail of a poll iteration, after the optional sub-protocol invocation:
break on a paused state (setting the polled status to `WaitingUserInput`),
raise `JobStoppedError` on a failure state, and otherwise sleep, advance the
timer by the polling interval, and raise `Job timed out` once the timer
exceeds the budget. -/
def pollIterationTail (env : Env) (response : GetTransformationResponse) (timer : Nat)
    (s : Sim) : Except GErr (Option String) × Sim :=
  if pausedStates.contains response.status then
    (.ok (some response.status), { s with polledJobStatus := waitingUserInputStatus })
  else if failureStates.contains response.status then
    (.error (.jobStopped response.requestId),
     { s with jobFailureMetadata := " (request ID: " ++ response.requestId ++ ")" })
  else
    let s := s.emit (.slept (env.pollingIntervalSeconds * 1000))
    if timer + env.pollingIntervalSeconds > env.timeoutSeconds then
      (.error (.genericError "Job timed out"), s)
    else (.ok none, s)

/-- One iteration of the poll loop of `pollTransformationJob`: cancellation
check, status fetch and `recordStatusObservation` bookkeeping, then in order:
break successfully on a caller-specified valid state, run the
AWAITING_CLIENT_ACTION sub-protocol (after a sleep) on a plan-generated status
when no authorization is pending, and finish with `pollIterationTail`.
`ok (some status)` models `break`, `ok none` models continuing the loop. -/
def pollIteration (env : Env) (jobId : String) (validStates : List String) (timer : Nat)
    (s : Sim) : Except GErr (Option String) × Sim :=
  match throwIfCancelled env s with
  | (.error e, s) => (.error e, s)
  | (.ok _, s) =>
    let response := env.responses s.fetchCount
    let s := { s with fetchCount := s.fetchCount + 1 }
    let s := recordStatusObservation response s
    if validStates.contains response.status then (.ok (some response.status), s)
    else if validStatesForPlanGenerated.contains response.status &&
        !s.waitingForClientSideBuildAuthorization then
      let s := s.emit (.slept (env.pollingIntervalSeconds * 1000))
      match processAwaitingClientActionStatus env jobId s with
      | (.error e, s) => (.error e, s)
      | (.ok _, s) => pollIterationTail env response timer s
    else pollIterationTail env response timer s

/-- The `while (true)` loop of `pollTransformationJob`, with fuel.  Fuel
exhaustion (`outOfFuel`) is unreachable whenever the polling interval is
positive and the fuel is at least `timeoutSeconds + 2 - timer / interval`. -/
def pollLoop (env : Env) (jobId : String) (validStates : List String) :
    Nat → Nat → Sim → Except GErr String × Sim
  | 0, _, s => (.error .outOfFuel, s)
  | fuel + 1, timer, s =>
    match pollIteration env jobId validStates timer s with
    | (.error e, s) => (.error e, s)
    | (.ok (some status), s) => (.ok status, s)
    | (.ok none, s) => pollLoop env jobId validStates fuel (timer + env.pollingIntervalSeconds) s

/-- Embedding of `pollTransformationJob`: run the poll loop from timer `0`
with enough fuel to reach the timeout budget. -/
def pollTransformationJob (env : Env) (jobId : String) (validStates : List String)
    (s : Sim) : Except GErr String × Sim :=
  pollLoop env jobId validStates (env.timeoutSeconds + 2) 0 s

/-- The filename suffixes excluded from the archive
(`excludedFiles` of `transformApiHandler.ts`). -/
def excludedFiles : List String :=
  [".repositories", ".sha1", ".lock", "gc.properties", ".dll"]

/-- Embedding of `isExcludedFile`: exclude a path ending in any of the
excluded suffixes. -/
def isExcludedFile (path : String) : Bool :=
  excludedFiles.any (fun extension => strEndsWith path extension)

/-- Modelled from the spec: the `ZipManifest` record of the data model (§3,
the models module is not among the sources): `buildTool`, optional
`dependenciesRoot` path tag, optional `hilCapabilities` capability list. -/
structure ZipManifest where
  buildTool : BuildSystem
  dependenciesRoot : Option String
  hilCapabilities : Option (List String)
deriving DecidableEq, Repr

/-- The manifest argument of `zipCode`: either a plain `ZipManifest` or a
HIL-round manifest (whose fields the embedded code never touches). -/
inductive ZipManifestArg
  | zipM (m : ZipManifest)
  | hilM
deriving DecidableEq, Repr

/-- Clearing of `dependenciesRoot`, applied only when the manifest is a plain
`ZipManifest` (the `instanceof` check of the source). -/
def clearDependenciesRoot : ZipManifestArg → ZipManifestArg
  | .zipM m => .zipM { m with dependenciesRoot := none }
  | .hilM => .hilM

/-- A dependencies scratch folder (`FolderInfo`). -/
structure FolderInfo where
  path : String
  name : String
deriving DecidableEq, Repr

/-- The named parameters of `zipCode` (`IZipCodeParams`); the optional
`humanInTheLoopFlag` becomes a plain boolean (absent = falsy). -/
structure ZipCodeArgs where
  dependenciesFolder : Option FolderInfo
  humanInTheLoopFlag : Bool
  modulePath : Option String
  zipManifest : ZipManifestArg
deriving Repr

/-- The per-file archive-add loop over the source-tree walk of `zipCode`:
skip directories (likely symlinks) and excluded files, add the rest to the
archive under `sources/`. -/
def addSourceEntries (env : Env) (sourceFiles : List String) (s : Sim) : Sim :=
  sourceFiles.foldl (fun (s : Sim) file =>
    if env.isDirectory file then s
    else if isExcludedFile file then s
    else s.emit (.addedZipEntry file)) s

/-- The per-file archive-add loop over the dependency-tree walk of `zipCode`:
skip excluded files, add the rest under `dependencies/`. -/
def addDependencyEntries (dependencyFiles : List String) (s : Sim) : Sim :=
  dependencyFiles.foldl (fun (s : Sim) file =>
    if isExcludedFile file then s else s.emit (.addedZipEntry file)) s

/-- The `try` block of `zipCode`: cancellation check, source-tree walk (when a
module path is given, skipping directories and excluded files), cancellation
check, dependency-tree walk (when a dependencies folder is given and exists;
an empty walk clears `dependenciesRoot`), manifest finalization and write
(Gradle clears `dependenciesRoot` and `hilCapabilities`), cancellation check,
build-log write (added to the archive unless packaging a HIL round), zip
write, and removal of the dependencies folder. -/
def zipCodeTry (env : Env) (args : ZipCodeArgs) (s : Sim) : Except GErr String × Sim :=
  match throwIfCancelled env s with
  | (.error e, s) => (.error e, s)
  | (.ok _, s) =>
    let s := match args.modulePath with
      | some modulePath =>
        let sourceFiles := env.walkFiles modulePath false
        let s := s.emit (.sourceWalkDone modulePath)
        addSourceEntries env sourceFiles s
      | none => s
    match throwIfCancelled env s with
    | (.error e, s) => (.error e, s)
    | (.ok _, s) =>
      let (s, manifestArg) := match args.dependenciesFolder with
        | some dependenciesFolder =>
          if env.dirExists dependenciesFolder.path then
            let s := s.emit (.depWalkDone dependenciesFolder.path)
            let dependencyFiles := env.walkFiles dependenciesFolder.path true
            if dependencyFiles.length > 0 then
              let s := addDependencyEntries dependencyFiles s
              (s, args.zipManifest)
            else (s, clearDependenciesRoot args.zipManifest)
          else (s, clearDependenciesRoot args.zipManifest)
        | none => (s, args.zipManifest)
      let _manifestFinal := match manifestArg with
        | .zipM m =>
          let m := { m with buildTool := s.buildSystem }
          if s.buildSystem = BuildSystem.gradle then
            ZipManifestArg.zipM { m with dependenciesRoot := none, hilCapabilities := none }
          else ZipManifestArg.zipM m
        | .hilM => ZipManifestArg.hilM
      let s := s.emit .manifestAdded
      match throwIfCancelled env s with
      | (.error e, s) => (.error e, s)
      | (.ok _, s) =>
        let _logFilePath := env.logFilePath
        let s := if !args.humanInTheLoopFlag then s.emit .logFileAdded else s
        let tempFilePath := env.tmpdir ++ "/zipped-code.zip"
        let s := s.emit (.wroteZip tempFilePath)
        let s := match args.dependenciesFolder with
          | some dependenciesFolder =>
            if env.dirExists dependenciesFolder.path then s.emit (.removedDir dependenciesFolder.path)
            else s
          | none => s
        (.ok tempFilePath, s)

/-- Embedding of `zipCode`: run the `try` block (any raised error is wrapped
in the generic `Failed to zip project` error), then compare the written
archive size against the fixed ceiling; exceeding it shows the size
notifications and raises the dedicated `ZipExceedsSizeLimitError`, otherwise
the archive path is returned. -/
def zipCode (env : Env) (args : ZipCodeArgs) (s : Sim) : Except GErr String × Sim :=
  match zipCodeTry env args s with
  | (.error e, s) => (.error (.genericError ("Failed to zip project due to: " ++ e.message)), s)
  | (.ok tempFilePath, s) =>
    let zipSize := env.zipWrittenSize
    let exceedsLimit := zipSize > uploadZipSizeLimitInBytes
    if exceedsLimit then
      let s := s.emit (.showedErrorMessage projectSizeTooLargeNotification)
      let s := s.emit .firedTransformationFinished
      (.error .zipExceedsSizeLimit, s)
    else (.ok tempFilePath, s)

/-- A VS Code workspace folder, restricted to the fields read. -/
structure WorkspaceFolder where
  name : String
  fsPath : String
deriving DecidableEq, Repr

/-- A candidate project produced by the Project Validator
(`TransformationCandidateProject`). -/
structure TransformationCandidateProject where
  name : String
  path : String
  jdkVersion : Option JDKVersion
deriving DecidableEq, Repr

/-- Oracles for the Project Validator's external collaborators: the workspace
`.java`-file search (capped at one result, so a boolean), the build-system
probe of `checkBuildSystem`, the `.class`-file search, and the `javap`
subprocess. -/
structure ValidatorEnv where
  hasJavaFile : String → Bool
  buildSystems : String → List BuildSystem
  classFile : String → Option String
  javapStatus : String → Int
  javapStdout : String → String

/-- Embedding of `getOpenProjects`: raise `NoOpenProjectsError` when the
workspace-folder list is `undefined`; otherwise map each folder to a
candidate project. -/
def getOpenProjects (folders : Option (List WorkspaceFolder)) :
    Except GErr (List TransformationCandidateProject) :=
  match folders with
  | none => .error .noOpenProjects
  | some folders =>
    .ok (folders.map (fun folder => { name := folder.name, path := folder.fsPath, jdkVersion := none }))

/-- Embedding of `getJavaProjects`: keep the projects whose tree contains a
`.java` file. -/
def getJavaProjects (env : ValidatorEnv) (projects : List TransformationCandidateProject) :
    List TransformationCandidateProject :=
  projects.filter (fun project => env.hasJavaFile project.path)

/-- Embedding of `getMavenOrGradleJavaProjects`: keep the projects whose
build-system probe reports Maven or Gradle. -/
def getMavenOrGradleJavaProjects (env : ValidatorEnv)
    (javaProjects : List TransformationCandidateProject) :
    List TransformationCandidateProject :=
  javaProjects.filter (fun project =>
    (env.buildSystems project.path).contains BuildSystem.maven ||
      (env.buildSystems project.path).contains BuildSystem.gradle)

/-- Modelled from the spec: `CodeWhispererConstants.JDK8VersionNumber`, the
class-file major version of Java 8 (constants module missing). -/
def JDK8VersionNumber : String := "52"

/-- Modelled from the spec: `CodeWhispererConstants.JDK11VersionNumber`, the
class-file major version of Java 11 (constants module missing). -/
def JDK11VersionNumber : String := "55"

/-- The JDK-detection part of `getProjectsValidToTransform` for one project:
when a compiled class file exists, run `javap -v`; a failing tool yields no
detected version (detection failure never raises); otherwise parse the text
after `major version: ` and map `52`/`55` to JDK 8/11, anything else to
`UNSUPPORTED`. -/
def detectJavaVersion (env : ValidatorEnv) (projectPath : String) : Option JDKVersion :=
  match env.classFile projectPath with
  | none => none
  | some classFilePath =>
    if env.javapStatus classFilePath ≠ 0 then none
    else
      let out := env.javapStdout classFilePath
      let majorVersionIndex := charsIndexOf "major version: ".data out.data
      let lo := (majorVersionIndex + 15).toNat
      let javaVersion := strTrim (strSlice out lo (lo + 2))
      if javaVersion = JDK8VersionNumber then some .jdk8
      else if javaVersion = JDK11VersionNumber then some .jdk11
      else some .unsupported

/-- Embedding of `getProjectsValidToTransform`: annotate every project with
its best-effort detected JDK version. -/
def getProjectsValidToTransform (env : ValidatorEnv)
    (mavenOrGradleJavaProjects : List TransformationCandidateProject) :
    List TransformationCandidateProject :=
  mavenOrGradleJavaProjects.map (fun project =>
    { project with jdkVersion := detectJavaVersion env project.path })

/-- Embedding of `validateOpenProjects`: filter to Java projects (raising
`NoJavaProjectsFoundError` when none remain), then to Maven/Gradle projects
(raising `NoMavenOrGradleJavaProjectsFoundError` when none remain), then
annotate with detected JDK versions. -/
def validateOpenProjects (env : ValidatorEnv)
    (projects : List TransformationCandidateProject) :
    Except GErr (List TransformationCandidateProject) :=
  let javaProjects := getJavaProjects env projects
  if javaProjects.length = 0 then .error .noJavaProjectsFound
  else
    let mavenOrGradleJavaProjects := getMavenOrGradleJavaProjects env javaProjects
    if mavenOrGradleJavaProjects.length = 0 then .error .noMavenOrGradleJavaProjectsFound
    else .ok (getProjectsValidToTransform env mavenOrGradleJavaProjects)

/-- Number of events satisfying `p` in a trace. -/
def countEvents (p : Event → Bool) (tr : List Event) : Nat :=
  (tr.filter p).length

/-- Is the event a status observation (a processed `GetTransformation`
response)? -/
def Event.isObservation : Event → Bool
  | .observedStatus _ => true
  | _ => false

/-- Is the event a telemetry status-change emission? -/
def Event.isStatusChangeEmission : Event → Bool
  | .emittedStatusChange _ _ => true
  | _ => false

/-- Is the event an invocation of the AWAITING_CLIENT_ACTION sub-protocol? -/
def Event.isSubProtocolInvocation : Event → Bool
  | .invokedSubProtocol => true
  | _ => false

/-- Is the event a read of the cancellation flag? -/
def Event.isCancelCheck : Event → Bool
  | .cancelCheck _ => true
  | _ => false

/-- Is the event a build-subprocess spawn? -/
def Event.isSpawn : Event → Bool
  | .spawnedBuild _ => true
  | _ => false

/-- Is the event a call of the job-stop operation `stopTransformByQ`? -/
def Event.isStopTransformCall : Event → Bool
  | .calledStopTransform => true
  | _ => false

/-- Scanner deciding that every pair of successive status observations in the
trace is separated by at least one sleep of `ms` milliseconds; the flag says
whether a sleep is still owed before the next observation may appear. -/
def observationsSeparatedBySleep (ms : Nat) : Bool → List Event → Bool
  | _, [] => true
  | needSleep, .observedStatus _ :: rest =>
    if needSleep then false else observationsSeparatedBySleep ms true rest
  | needSleep, .slept m :: rest =>
    observationsSeparatedBySleep ms (needSleep && !(m == ms)) rest
  | needSleep, _ :: rest => observationsSeparatedBySleep ms needSleep rest

/-- A fixed benign environment for concrete runs: never cancelled, one-second
polling interval, completed job, empty plan, successful externals. -/
def baseEnv : Env where
  cancelled := fun _ => false
  pollingIntervalSeconds := 1
  timeoutSeconds := 30
  responses := fun _ => { status := "COMPLETED", reason := none, requestId := "req-0" }
  planSteps := fun _ => []
  planRequestId := fun _ => "req-plan"
  userChoice := fun _ => UserChoice.yes
  spawnResult := fun _ => { status := some 0, stdout := "build ok", stderr := "" }
  stopResult := fun _ => .ok (some "req-stop")
  uploadResponse := fun _ => { uploadId := "upload-1", requestId := "req-up" }
  resumeStatus := fun _ => some "TRANSFORMING"
  clientManifest := fun _ =>
    { capability := "CLIENT_SIDE_BUILD", buildCommand := "mvn test", diffFileName := "diff.patch" }
  sha256Of := fun _ => "sha"
  tmpdir := "/tmp"
  walkFiles := fun _ _ => []
  isDirectory := fun _ => false
  fileSize := fun _ => 1
  dirExists := fun _ => true
  logFilePath := "/tmp/build-logs.txt"
  zipWrittenSize := 1000

/-- The status sequence `[SUBMITTED, PLANNING, TRANSFORMING, COMPLETED]` of
the spec's polling scenario, with the five-second polling interval. -/
def c1Env : Env :=
  { baseEnv with
      pollingIntervalSeconds := 5
      timeoutSeconds := 86400
      responses := fun n =>
        { status := ["SUBMITTED", "PLANNING", "TRANSFORMING", "COMPLETED"].getD n "COMPLETED"
          reason := none
          requestId := "r" } }

/-- The status that never reaches a valid, failure or paused state, polled
against a two-second budget: the timeout scenario. -/
def c3wEnv : Env :=
  { baseEnv with
      timeoutSeconds := 2
      responses := fun _ => { status := "SUBMITTED", reason := none, requestId := "r" } }

/-- `s'` extends the trace of `s` only with events satisfying `allowed`. -/
def TraceExtends (s s' : Sim) (allowed : Event → Bool) : Prop :=
  ∃ d, s'.trace = s.trace ++ d ∧ d.all allowed = true

theorem countEvents_append (p : Event → Bool) (a b : List Event) :
    countEvents p (a ++ b) = countEvents p a + countEvents p b := by
  simp [countEvents, List.filter_append]

theorem TraceExtends.of_trace_eq {s s' : Sim} {allowed : Event → Bool}
    (h : s'.trace = s.trace) : TraceExtends s s' allowed :=
  ⟨[], by simp [h], rfl⟩

theorem TraceExtends.rfl {s : Sim} {allowed : Event → Bool} : TraceExtends s s allowed :=
  TraceExtends.of_trace_eq (Eq.refl s.trace)

theorem TraceExtends.comp {s s' s'' : Sim} {allowed : Event → Bool}
    (h1 : TraceExtends s s' allowed) (h2 : TraceExtends s' s'' allowed) :
    TraceExtends s s'' allowed := by
  obtain ⟨d1, e1, a1⟩ := h1
  obtain ⟨d2, e2, a2⟩ := h2
  exact ⟨d1 ++ d2, by simp [e2, e1], by simp_all [List.all_append]⟩

theorem TraceExtends.mono {s s' : Sim} {a b : Event → Bool}
    (hab : ∀ e, a e = true → b e = true) (h : TraceExtends s s' a) :
    TraceExtends s s' b := by
  obtain ⟨d, e1, a1⟩ := h
  refine ⟨d, e1, ?_⟩
  simp only [List.all_eq_true] at a1 ⊢
  exact fun e he => hab e (a1 e he)

theorem TraceExtends.emit {s : Sim} {allowed : Event → Bool} {e : Event}
    (he : allowed e = true) : TraceExtends s (s.emit e) allowed :=
  ⟨[e], by simp [Sim.emit], by simp [he]⟩

theorem TraceExtends.emit_comp {s s' : Sim} {allowed : Event → Bool} {e : Event}
    (h : TraceExtends s s' allowed) (he : allowed e = true) :
    TraceExtends s (s'.emit e) allowed :=
  h.comp (TraceExtends.emit he)

theorem TraceExtends.count_eq {s s' : Sim} {allowed : Event → Bool}
    (h : TraceExtends s s' allowed) (p : Event → Bool)
    (hp : ∀ e, allowed e = true → p e = false) :
    countEvents p s'.trace = countEvents p s.trace := by
  obtain ⟨d, e1, a1⟩ := h
  have hz : countEvents p d = 0 := by
    simp only [countEvents, List.length_eq_zero, List.filter_eq_nil_iff]
    intro e he
    simp only [List.all_eq_true] at a1
    simp [hp e (a1 e he)]
  simp [e1, countEvents_append, hz]

/-- Events that are neither telemetry status-change emissions nor sub-protocol
invocations (everything the poll loop's helpers may append). -/
def pollQuiet (e : Event) : Bool :=
  !(Event.isStatusChangeEmission e || Event.isSubProtocolInvocation e)

/-- Events that are moreover neither subprocess spawns nor `stopTransformByQ`
calls (everything the upload/download helpers may append). -/
def buildQuiet (e : Event) : Bool :=
  !(Event.isStatusChangeEmission e || Event.isSubProtocolInvocation e ||
    Event.isSpawn e || Event.isStopTransformCall e)

theorem buildQuiet_pollQuiet : ∀ e, buildQuiet e = true → pollQuiet e = true := by
  intro e
  cases e <;> simp [buildQuiet, pollQuiet, Event.isStatusChangeEmission,
    Event.isSubProtocolInvocation, Event.isSpawn, Event.isStopTransformCall]

theorem throwIfCancelled_extends (env : Env) (s : Sim) :
    TraceExtends s (throwIfCancelled env s).2 buildQuiet := by
  unfold throwIfCancelled
  by_cases h : env.cancelled s.checkCount <;> simp [h] <;> exact ⟨[_], rfl, rfl⟩

theorem stopJob_extends (env : Env) (jobId : String) (s : Sim) :
    TraceExtends s (stopJob env jobId s).2 buildQuiet := by
  unfold stopJob
  by_cases h : jobId = ""
  · simp [h]
    exact TraceExtends.rfl
  · simp [h]
    rcases env.stopResult s.stopCount with e | rid
    · exact ⟨[_], rfl, rfl⟩
    · by_cases ht : strTruthy rid = true <;> simp [ht] <;> exact ⟨[_], rfl, rfl⟩

theorem resumeTransformationJob_extends (env : Env) (jobId uas : String) (s : Sim) :
    TraceExtends s (resumeTransformationJob env jobId uas s).2 buildQuiet :=
  ⟨[_], rfl, rfl⟩

theorem uploadArtifactToS3_extends (env : Env) (fileName : String) (resp : UploadUrlResponse)
    (sha256 : String) (s : Sim) :
    TraceExtends s (uploadArtifactToS3 env fileName resp sha256 s).2 buildQuiet := by
  unfold uploadArtifactToS3
  have h1 := throwIfCancelled_extends env s
  rcases h : throwIfCancelled env s with ⟨r, s1⟩
  rw [h] at h1
  cases r
  · exact h1
  · exact h1.emit_comp rfl

theorem TraceExtends.step {s s1 s' : Sim} {allowed : Event → Bool}
    (h : TraceExtends s s1 allowed) (d : List Event) (hd : s'.trace = s1.trace ++ d)
    (ha : d.all allowed = true) : TraceExtends s s' allowed :=
  h.comp ⟨d, hd, ha⟩

theorem TraceExtends.upd {s s1 s' : Sim} {allowed : Event → Bool}
    (h : TraceExtends s s1 allowed) (ht : s'.trace = s1.trace) : TraceExtends s s' allowed :=
  h.comp (TraceExtends.of_trace_eq ht)

theorem TraceExtends.if_both {c : Prop} [Decidable c] {s a b : Sim} {allowed : Event → Bool}
    (ha : TraceExtends s a allowed) (hb : TraceExtends s b allowed) :
    TraceExtends s (if c then a else b) allowed := by
  split <;> assumption

theorem throwIfCancelled_ext (env : Env) {s : Sim} {r : Except GErr Unit} {s' : Sim}
    (h : throwIfCancelled env s = (r, s')) : TraceExtends s s' buildQuiet := by
  have h1 := throwIfCancelled_extends env s
  rw [h] at h1
  exact h1

theorem stopJob_ext (env : Env) (jobId : String) {s : Sim} {r : Except GErr Unit} {s' : Sim}
    (h : stopJob env jobId s = (r, s')) : TraceExtends s s' buildQuiet := by
  have h1 := stopJob_extends env jobId s
  rw [h] at h1
  exact h1

theorem resumeTransformationJob_ext (env : Env) (jobId uas : String) {s : Sim}
    {r : Except GErr (Option String)} {s' : Sim}
    (h : resumeTransformationJob env jobId uas s = (r, s')) : TraceExtends s s' buildQuiet := by
  have h1 := resumeTransformationJob_extends env jobId uas s
  rw [h] at h1
  exact h1

theorem uploadArtifactToS3_ext (env : Env) {fileName : String} {resp : UploadUrlResponse}
    {sha256 : String} {s : Sim} {r : Except GErr Unit} {s' : Sim}
    (h : uploadArtifactToS3 env fileName resp sha256 s = (r, s')) :
    TraceExtends s s' buildQuiet := by
  have h1 := uploadArtifactToS3_extends env fileName resp sha256 s
  rw [h] at h1
  exact h1

theorem uploadPayload_extends (env : Env) (pf : String) (uc : Option UploadContext) (s : Sim) :
    TraceExtends s (uploadPayload env pf uc s).2 buildQuiet := by
  unfold uploadPayload
  split
  case h_1 r s1 heq => exact throwIfCancelled_ext env heq
  case h_2 u s1 heq =>
    have h1 := throwIfCancelled_ext env heq
    dsimp only
    split
    case h_1 r2 s5 heq2 =>
      exact (TraceExtends.if_both ((h1.step [Event.calledCreateUploadUrl] rfl rfl).upd rfl)
        (h1.step [Event.calledCreateUploadUrl] rfl rfl)).comp (uploadArtifactToS3_ext env heq2)
    case h_2 a s5 heq2 =>
      have h3 := (TraceExtends.if_both ((h1.step [Event.calledCreateUploadUrl] rfl rfl).upd rfl)
        (h1.step [Event.calledCreateUploadUrl] rfl rfl)).comp (uploadArtifactToS3_ext env heq2)
      split <;> exact h3.upd rfl

theorem uploadPayload_ext (env : Env) (pf : String) (uc : Option UploadContext) {s : Sim}
    {r : Except GErr String} {s' : Sim} (h : uploadPayload env pf uc s = (r, s')) :
    TraceExtends s s' buildQuiet := by
  have h1 := uploadPayload_extends env pf uc s
  rw [h] at h1
  exact h1

theorem getTransformationSteps_extends (env : Env) (jid : String) (flag : Bool) (s : Sim) :
    TraceExtends s (getTransformationSteps env jid flag s).2 buildQuiet := by
  unfold getTransformationSteps
  dsimp only
  split <;> split <;>
    first
      | exact ((TraceExtends.emit rfl).step [Event.calledGetPlan] rfl rfl).upd rfl
      | exact (TraceExtends.emit rfl).step [Event.calledGetPlan] rfl rfl
      | exact (TraceExtends.rfl.step [Event.calledGetPlan] rfl rfl).upd rfl
      | exact TraceExtends.rfl.step [Event.calledGetPlan] rfl rfl

theorem getTransformationSteps_ext (env : Env) {jid : String} {flag : Bool} {s : Sim}
    {r : Except GErr (List TransformationStep)} {s' : Sim}
    (h : getTransformationSteps env jid flag s = (r, s')) : TraceExtends s s' buildQuiet := by
  have h1 := getTransformationSteps_extends env jid flag s
  rw [h] at h1
  exact h1

theorem downloadAndExtractResultArchive_extends (env : Env) (jid : String)
    (daid : Option String) (dir : String) (s : Sim) :
    TraceExtends s (downloadAndExtractResultArchive env jid daid dir s).2 buildQuiet :=
  ⟨[_], rfl, rfl⟩

theorem downloadAndExtractResultArchive_ext (env : Env) {jid : String} {daid : Option String}
    {dir : String} {s : Sim} {r : Except GErr Unit} {s' : Sim}
    (h : downloadAndExtractResultArchive env jid daid dir s = (r, s')) :
    TraceExtends s s' buildQuiet := by
  have h1 := downloadAndExtractResultArchive_extends env jid daid dir s
  rw [h] at h1
  exact h1

theorem extractClientInstructions_extends (env : Env) (jid caid : String) (s : Sim) :
    TraceExtends s (extractClientInstructions env jid caid s).2 buildQuiet := by
  unfold extractClientInstructions
  dsimp only
  split
  case h_1 r s1 heq => exact downloadAndExtractResultArchive_ext env heq
  case h_2 u s1 heq => exact downloadAndExtractResultArchive_ext env heq

theorem extractClientInstructions_ext (env : Env) {jid caid : String} {s : Sim}
    {r : Except GErr ClientInstructions} {s' : Sim}
    (h : extractClientInstructions env jid caid s = (r, s')) : TraceExtends s s' buildQuiet := by
  have h1 := extractClientInstructions_extends env jid caid s
  rw [h] at h1
  exact h1

theorem TraceExtends.emit2 {s : Sim} {allowed : Event → Bool} {e1 e2 : Event}
    (h1 : allowed e1 = true) (h2 : allowed e2 = true) :
    TraceExtends s ((s.emit e1).emit e2) allowed :=
  (TraceExtends.emit h1).emit_comp h2

theorem writeAndShowBuildLogs_extends (env : Env) (caid logs : String) (s : Sim) :
    TraceExtends s (writeAndShowBuildLogs env caid logs s).2 buildQuiet := by
  unfold writeAndShowBuildLogs
  dsimp only
  exact TraceExtends.emit2 rfl rfl

theorem writeAndShowBuildLogs_ext (env : Env) {caid logs : String} {s : Sim}
    {dir : String} {s' : Sim} (h : writeAndShowBuildLogs env caid logs s = (dir, s')) :
    TraceExtends s s' buildQuiet := by
  have h1 := writeAndShowBuildLogs_extends env caid logs s
  rw [h] at h1
  exact h1

theorem updateManifestFile_extends (code : Int) (p : String) (s : Sim) :
    TraceExtends s (updateManifestFile code p s) buildQuiet :=
  ⟨[_], rfl, rfl⟩

theorem getClientInstructionArtifactId_extends (env : Env) (jid : String) (s : Sim) :
    TraceExtends s (getClientInstructionArtifactId env jid s).2 buildQuiet := by
  unfold getClientInstructionArtifactId
  dsimp only
  split
  case h_1 r s1 heq =>
    exact (TraceExtends.emit rfl).comp (getTransformationSteps_ext env heq)
  case h_2 steps s1 heq =>
    have h1 := ((TraceExtends.emit rfl :
        TraceExtends s (s.emit (Event.slept (env.pollingIntervalSeconds * 1000))) buildQuiet)).comp
      (getTransformationSteps_ext env heq)
    split
    · split <;> exact h1
    · exact h1

theorem getClientInstructionArtifactId_ext (env : Env) {jid : String} {s : Sim}
    {r : Except GErr (Option TransformationStatusInfo)} {s' : Sim}
    (h : getClientInstructionArtifactId env jid s = (r, s')) : TraceExtends s s' buildQuiet := by
  have h1 := getClientInstructionArtifactId_extends env jid s
  rw [h] at h1
  exact h1

theorem stopTransformByQ_extends (env : Env) (jobId : String) (s : Sim) :
    TraceExtends s (stopTransformByQ env jobId s) pollQuiet := by
  unfold stopTransformByQ
  dsimp only
  exact ((TraceExtends.emit rfl).comp
    ((stopJob_extends env jobId _).mono buildQuiet_pollQuiet)).emit_comp rfl

theorem runClientSideBuildAfterAuth_extends (env : Env) (caid baseCommand : String)
    (args : List String) (s : Sim) :
    TraceExtends s (runClientSideBuildAfterAuth env caid baseCommand args s).2 pollQuiet := by
  unfold runClientSideBuildAfterAuth
  dsimp only
  split
  case h_1 code heqS =>
    split
    case h_1 r3 s3 heqU =>
      refine TraceExtends.comp ?_ ((uploadPayload_ext env _ _ heqU).mono buildQuiet_pollQuiet)
      exact (((TraceExtends.if_both ⟨[Event.spawnedBuild baseCommand], by rfl, by rfl⟩
        ⟨[Event.spawnedBuild baseCommand], by rfl, by rfl⟩).comp
        ((writeAndShowBuildLogs_extends env caid _ _).mono buildQuiet_pollQuiet)).comp
        ((updateManifestFile_extends _ _ _).mono buildQuiet_pollQuiet)).emit_comp rfl
    case h_2 uid s3 heqU =>
      split
      case h_1 r4 s4 heqR =>
        refine TraceExtends.comp ?_ ((resumeTransformationJob_ext env _ _ heqR).mono buildQuiet_pollQuiet)
        refine TraceExtends.comp ?_ ((uploadPayload_ext env _ _ heqU).mono buildQuiet_pollQuiet)
        exact (((TraceExtends.if_both ⟨[Event.spawnedBuild baseCommand], by rfl, by rfl⟩
          ⟨[Event.spawnedBuild baseCommand], by rfl, by rfl⟩).comp
          ((writeAndShowBuildLogs_extends env caid _ _).mono buildQuiet_pollQuiet)).comp
          ((updateManifestFile_extends _ _ _).mono buildQuiet_pollQuiet)).emit_comp rfl
      case h_2 r4 s4 heqR =>
        refine TraceExtends.comp ?_ ((resumeTransformationJob_ext env _ _ heqR).mono buildQuiet_pollQuiet)
        refine TraceExtends.comp ?_ ((uploadPayload_ext env _ _ heqU).mono buildQuiet_pollQuiet)
        exact (((TraceExtends.if_both ⟨[Event.spawnedBuild baseCommand], by rfl, by rfl⟩
          ⟨[Event.spawnedBuild baseCommand], by rfl, by rfl⟩).comp
          ((writeAndShowBuildLogs_extends env caid _ _).mono buildQuiet_pollQuiet)).comp
          ((updateManifestFile_extends _ _ _).mono buildQuiet_pollQuiet)).emit_comp rfl
  case h_2 heqS =>
    dsimp only
    refine TraceExtends.comp ?_ ((writeAndShowBuildLogs_extends env caid _ _).mono buildQuiet_pollQuiet)
    exact TraceExtends.if_both ⟨[Event.spawnedBuild baseCommand], by rfl, by rfl⟩
      ⟨[Event.spawnedBuild baseCommand], by rfl, by rfl⟩

theorem runClientSideBuildAfterAuth_ext (env : Env) {caid baseCommand : String}
    {args : List String} {s : Sim} {r : Except GErr Unit} {s' : Sim}
    (h : runClientSideBuildAfterAuth env caid baseCommand args s = (r, s')) :
    TraceExtends s s' pollQuiet := by
  have h1 := runClientSideBuildAfterAuth_extends env caid baseCommand args s
  rw [h] at h1
  exact h1

theorem runClientSideBuildBody_extends (env : Env) (caid : String) (s : Sim) :
    TraceExtends s (runClientSideBuildBody env caid s).2 pollQuiet := by
  unfold runClientSideBuildBody
  dsimp only
  split
  · split
    · refine TraceExtends.comp ?_ (stopTransformByQ_extends env _ _)
      exact ⟨[Event.promptedAuthorization], by rfl, by rfl⟩
    · split
      · exact ⟨[Event.promptedAuthorization], by rfl, by rfl⟩
      · refine TraceExtends.comp ?_ (runClientSideBuildAfterAuth_extends env caid _ _ _)
        exact ⟨[Event.promptedAuthorization], by rfl, by rfl⟩
  · refine TraceExtends.comp ?_ (runClientSideBuildAfterAuth_extends env caid _ _ _)
    exact TraceExtends.of_trace_eq rfl

theorem runClientSideBuildBody_ext (env : Env) {caid : String} {s : Sim}
    {r : Except GErr Unit} {s' : Sim} (h : runClientSideBuildBody env caid s = (r, s')) :
    TraceExtends s s' pollQuiet := by
  have h1 := runClientSideBuildBody_extends env caid s
  rw [h] at h1
  exact h1

theorem runClientSideBuild_extends (env : Env) (modulePath caid : String) (s : Sim) :
    TraceExtends s (runClientSideBuild env modulePath caid s).2 pollQuiet := by
  unfold runClientSideBuild
  split
  case h_1 e s1 heq => exact runClientSideBuildBody_ext env heq
  case h_2 u s1 heq => exact runClientSideBuildBody_ext env heq

theorem runClientSideBuild_ext (env : Env) {modulePath caid : String} {s : Sim}
    {r : Except GErr Unit} {s' : Sim} (h : runClientSideBuild env modulePath caid s = (r, s')) :
    TraceExtends s s' pollQuiet := by
  have h1 := runClientSideBuild_extends env modulePath caid s
  rw [h] at h1
  exact h1

theorem processClientInstructions_extends (env : Env) (jid : String) (ci : ClientInstructions)
    (caid : String) (s : Sim) :
    TraceExtends s (processClientInstructions env jid ci caid s).2 pollQuiet := by
  unfold processClientInstructions
  dsimp only
  split
  case h_1 e s1 heq =>
    refine TraceExtends.comp ?_ (runClientSideBuild_ext env heq)
    exact ((TraceExtends.emit (by rfl)).emit_comp (by rfl)).emit_comp (by rfl)
  case h_2 u s1 heq =>
    refine TraceExtends.comp ?_ (runClientSideBuild_ext env heq)
    exact ((TraceExtends.emit (by rfl)).emit_comp (by rfl)).emit_comp (by rfl)

theorem processClientInstructions_ext (env : Env) {jid : String} {ci : ClientInstructions}
    {caid : String} {s : Sim} {r : Except GErr Unit} {s' : Sim}
    (h : processClientInstructions env jid ci caid s = (r, s')) :
    TraceExtends s s' pollQuiet := by
  have h1 := processClientInstructions_extends env jid ci caid s
  rw [h] at h1
  exact h1

theorem processAwaitingClientActionStatus_extends (env : Env) (jid : String) (s : Sim) :
    TraceExtends (s.emit .invokedSubProtocol)
      (processAwaitingClientActionStatus env jid s).2 pollQuiet := by
  unfold processAwaitingClientActionStatus
  dsimp only
  split
  case h_1 r s1 heq => exact (throwIfCancelled_ext env heq).mono buildQuiet_pollQuiet
  case h_2 u s1 heq =>
    have h1 := (throwIfCancelled_ext env heq).mono buildQuiet_pollQuiet
    split
    case h_1 e s2 heq2 =>
      exact (h1.emit_comp (by rfl)).comp
        ((getClientInstructionArtifactId_ext env heq2).mono buildQuiet_pollQuiet)
    case h_2 s2 heq2 =>
      exact (h1.emit_comp (by rfl)).comp
        ((getClientInstructionArtifactId_ext env heq2).mono buildQuiet_pollQuiet)
    case h_3 info s2 heq2 =>
      have h2 := (h1.emit_comp (by rfl)).comp
        ((getClientInstructionArtifactId_ext env heq2).mono buildQuiet_pollQuiet)
      split
      · split
        · exact h2
        · split
          case h_1 e s3 heq3 =>
            exact (h2.emit_comp (by rfl)).comp
              ((extractClientInstructions_ext env heq3).mono buildQuiet_pollQuiet)
          case h_2 ci s3 heq3 =>
            have h3 := (h2.emit_comp (by rfl)).comp
              ((extractClientInstructions_ext env heq3).mono buildQuiet_pollQuiet)
            split
            case h_1 e s4 heq4 =>
              exact (h3.emit_comp (by rfl)).comp (processClientInstructions_ext env heq4)
            case h_2 u2 s4 heq4 =>
              exact (h3.emit_comp (by rfl)).comp (processClientInstructions_ext env heq4)
      · exact h2

theorem processAwaitingClientActionStatus_ext (env : Env) {jid : String} {s : Sim}
    {r : Except GErr Unit} {s' : Sim}
    (h : processAwaitingClientActionStatus env jid s = (r, s')) :
    TraceExtends (s.emit .invokedSubProtocol) s' pollQuiet := by
  have h1 := processAwaitingClientActionStatus_extends env jid s
  rw [h] at h1
  exact h1

theorem countEvents_nil (p : Event → Bool) : countEvents p [] = 0 := rfl

theorem countEvents_emit (p : Event → Bool) (s : Sim) (e : Event) :
    countEvents p (s.emit e).trace = countEvents p s.trace + (if p e then 1 else 0) := by
  by_cases hp : p e <;> simp [Sim.emit, countEvents, List.filter_append, hp]

/-- C1: for the status sequence `[SUBMITTED, PLANNING, TRANSFORMING, COMPLETED]`
polled with `validStates = [COMPLETED]`, the poll loop of
`pollTransformationJob` terminates successfully returning `COMPLETED` after
exactly four status observations, with a sleep of the polling interval between
each pair of successive observations. -/
theorem pollTransformationJob_c1_scenario :
    (pollTransformationJob c1Env "job-1" ["COMPLETED"] initialSim).1 = .ok "COMPLETED" ∧
    countEvents Event.isObservation
      (pollTransformationJob c1Env "job-1" ["COMPLETED"] initialSim).2.trace = 4 ∧
    observationsSeparatedBySleep (c1Env.pollingIntervalSeconds * 1000) false
      (pollTransformationJob c1Env "job-1" ["COMPLETED"] initialSim).2.trace = true := by
  exact ⟨rfl, by decide, by decide⟩

/-- C9 counterexample: with an open (but empty) workspace-folder list the
project-listing operation returns an empty project list successfully; it does
not fail with `NoOpenProjectsError`, refuting the claim at the input
`some []`. -/
theorem getOpenProjects_empty_list_counterexample :
    getOpenProjects (some []) = .ok [] ∧
    getOpenProjects (some []) ≠ .error .noOpenProjects :=
  ⟨rfl, fun h => by simp [getOpenProjects] at h⟩

/-- C9 amended: the project-listing operation fails with `NoOpenProjectsError`
exactly when the workspace-folder list is `undefined`; any present list
(including the empty one) is mapped to candidate projects without error. -/
theorem getOpenProjects_none_spec :
    getOpenProjects none = .error .noOpenProjects ∧
    ∀ folders : List WorkspaceFolder,
      getOpenProjects (some folders) =
        .ok (folders.map (fun folder =>
          { name := folder.name, path := folder.fsPath, jdkVersion := none })) :=
  ⟨rfl, fun _ => rfl⟩

/-- C10: `stopJob` with an empty (falsy) job id returns immediately without
invoking the backend stop operation and without mutating any state; for a
non-empty job id the backend stop call is issued exactly once. -/
theorem stopJob_empty_id_is_noop :
    (∀ env s, stopJob env "" s = (.ok (), s)) ∧
    (∀ env jobId s, jobId ≠ "" →
      countEvents (fun e => e == Event.calledBackendStop jobId) (stopJob env jobId s).2.trace =
        countEvents (fun e => e == Event.calledBackendStop jobId) s.trace + 1) := by
  constructor
  · intro env s
    rfl
  · intro env jobId s h
    unfold stopJob
    rw [if_neg h]
    dsimp only
    split
    · simp [countEvents_emit]
    · split <;> simp [countEvents_emit]

/-- C10 witness: the non-empty-id half applied at a concrete job id. -/
theorem stopJob_empty_id_is_noop_witness :
    countEvents (fun e => e == Event.calledBackendStop "job-7")
        (stopJob baseEnv "job-7" initialSim).2.trace =
      countEvents (fun e => e == Event.calledBackendStop "job-7") initialSim.trace + 1 :=
  stopJob_empty_id_is_noop.2 baseEnv "job-7" initialSim (by decide)

/-- C8: when no open project contains a `.java` file, validation fails with
`NoJavaProjectsFoundError` — and never with the missing-build-file error,
since the Java-file check runs before the build-descriptor check. -/
theorem validateOpenProjects_no_java (env : ValidatorEnv)
    (projects : List TransformationCandidateProject)
    (h : ∀ p ∈ projects, env.hasJavaFile p.path = false) :
    validateOpenProjects env projects = .error .noJavaProjectsFound ∧
    validateOpenProjects env projects ≠ .error .noMavenOrGradleJavaProjectsFound := by
  have hj : getJavaProjects env projects = [] := by
    simp only [getJavaProjects, List.filter_eq_nil_iff]
    intro p hp
    simp [h p hp]
  refine ⟨?_, ?_⟩ <;> simp [validateOpenProjects, hj]

/-- A validator environment with no Java files anywhere. -/
def noJavaValidatorEnv : ValidatorEnv where
  hasJavaFile := fun _ => false
  buildSystems := fun _ => [BuildSystem.maven]
  classFile := fun _ => none
  javapStatus := fun _ => 0
  javapStdout := fun _ => ""

/-- C8 witness: a concrete project set without Java files is rejected with the
no-Java-projects error. -/
theorem validateOpenProjects_no_java_witness :
    validateOpenProjects noJavaValidatorEnv
        [{ name := "app", path := "/w/app", jdkVersion := none }] = .error .noJavaProjectsFound ∧
      validateOpenProjects noJavaValidatorEnv
        [{ name := "app", path := "/w/app", jdkVersion := none }] ≠
        .error .noMavenOrGradleJavaProjectsFound :=
  validateOpenProjects_no_java noJavaValidatorEnv _ (fun _ _ => rfl)

/-- C4: inside the poll loop's failure-reason classification, a reason text
containing the monthly-limit substring records the dedicated monthly-limit
chat message and notification (never the generic ones), and a reason text
matching none of the known substrings records the generic messages with the
reason appended. -/
theorem setJobFailureMessages_classification :
    (∀ (reasonText : String) (s : Sim),
      strIncludes reasonText "Monthly aggregated Lines of Code limit breached" = true →
        (setJobFailureMessages reasonText s).jobFailureErrorChatMessage =
            failedToStartJobMonthlyLimitChatMessage ∧
          (setJobFailureMessages reasonText s).jobFailureErrorNotification =
            failedToStartJobMonthlyLimitNotification ∧
          (setJobFailureMessages reasonText s).jobFailureErrorChatMessage ≠
            failedToCompleteJobGenericChatMessage ++ " " ++ reasonText ∧
          (setJobFailureMessages reasonText s).jobFailureErrorNotification ≠
            failedToCompleteJobGenericNotification ++ " " ++ reasonText) ∧
    (∀ (reasonText : String) (s : Sim),
      strIncludes reasonText "Monthly aggregated Lines of Code limit breached" = false →
      strIncludes reasonText "Lines of Code limit breached for job" = false →
        (setJobFailureMessages reasonText s).jobFailureErrorChatMessage =
            failedToCompleteJobGenericChatMessage ++ " " ++ reasonText ∧
          (setJobFailureMessages reasonText s).jobFailureErrorNotification =
            failedToCompleteJobGenericNotification ++ " " ++ reasonText) := by
  constructor
  · intro reasonText s h
    refine ⟨by simp [setJobFailureMessages, h], by simp [setJobFailureMessages, h], ?_, ?_⟩
    · intro heq
      have hlen := congrArg String.length heq
      have hmsg : (setJobFailureMessages reasonText s).jobFailureErrorChatMessage =
          failedToStartJobMonthlyLimitChatMessage := by simp [setJobFailureMessages, h]
      rw [hmsg] at hlen
      rw [String.length_append, String.length_append] at hlen
      have h1 : failedToStartJobMonthlyLimitChatMessage.length = 41 := rfl
      have h2 : failedToCompleteJobGenericChatMessage.length = 46 := rfl
      have h3 : (" " : String).length = 1 := rfl
      rw [h1, h2, h3] at hlen
      omega
    · intro heq
      have hlen := congrArg String.length heq
      have hmsg : (setJobFailureMessages reasonText s).jobFailureErrorNotification =
          failedToStartJobMonthlyLimitNotification := by simp [setJobFailureMessages, h]
      rw [hmsg] at hlen
      rw [String.length_append, String.length_append] at hlen
      have h1 : failedToStartJobMonthlyLimitNotification.length = 32 := rfl
      have h2 : failedToCompleteJobGenericNotification.length = 46 := rfl
      have h3 : (" " : String).length = 1 := rfl
      rw [h1, h2, h3] at hlen
      omega
  · intro reasonText s h1 h2
    exact ⟨by simp [setJobFailureMessages, h1, h2], by simp [setJobFailureMessages, h1, h2]⟩

/-- C4 witness: the two halves of the classification applied at concrete
reason texts. -/
theorem setJobFailureMessages_classification_witness :
    ((setJobFailureMessages "Monthly aggregated Lines of Code limit breached for this account"
        initialSim).jobFailureErrorChatMessage = failedToStartJobMonthlyLimitChatMessage ∧
      (setJobFailureMessages "Monthly aggregated Lines of Code limit breached for this account"
        initialSim).jobFailureErrorNotification = failedToStartJobMonthlyLimitNotification ∧
      (setJobFailureMessages "Monthly aggregated Lines of Code limit breached for this account"
        initialSim).jobFailureErrorChatMessage ≠
        failedToCompleteJobGenericChatMessage ++ " " ++
          "Monthly aggregated Lines of Code limit breached for this account" ∧
      (setJobFailureMessages "Monthly aggregated Lines of Code limit breached for this account"
        initialSim).jobFailureErrorNotification ≠
        failedToCompleteJobGenericNotification ++ " " ++
          "Monthly aggregated Lines of Code limit breached for this account") ∧
    ((setJobFailureMessages "some backend failure" initialSim).jobFailureErrorChatMessage =
        failedToCompleteJobGenericChatMessage ++ " " ++ "some backend failure" ∧
      (setJobFailureMessages "some backend failure" initialSim).jobFailureErrorNotification =
        failedToCompleteJobGenericNotification ++ " " ++ "some backend failure") :=
  ⟨setJobFailureMessages_classification.1 _ initialSim (by decide),
   setJobFailureMessages_classification.2 _ initialSim (by decide) (by decide)⟩

/-- Is the event an archive-entry addition? -/
def Event.isZipEntry : Event → Bool
  | .addedZipEntry _ => true
  | _ => false

/-- The events of a `zipCode` run that mark its phases and cancellation
checks. -/
def zipMarker : Event → Bool
  | .cancelCheck _ => true
  | .sourceWalkDone _ => true
  | .depWalkDone _ => true
  | .manifestAdded => true
  | .logFileAdded => true
  | .wroteZip _ => true
  | _ => false

theorem addSourceEntries_spec (env : Env) (files : List String) (s : Sim) :
    ∃ d, addSourceEntries env files s = { s with trace := s.trace ++ d } ∧
      d.all Event.isZipEntry = true := by
  induction files generalizing s with
  | nil =>
    refine ⟨[], ?_, rfl⟩
    simp [addSourceEntries]
  | cons f t ih =>
    by_cases h1 : env.isDirectory f
    · obtain ⟨d, hd, ha⟩ := ih s
      exact ⟨d, by simpa [addSourceEntries, List.foldl_cons, h1] using hd, ha⟩
    · by_cases h2 : isExcludedFile f
      · obtain ⟨d, hd, ha⟩ := ih s
        exact ⟨d, by simpa [addSourceEntries, List.foldl_cons, h1, h2] using hd, ha⟩
      · obtain ⟨d, hd, ha⟩ := ih (s.emit (.addedZipEntry f))
        refine ⟨Event.addedZipEntry f :: d, ?_, by simp [ha, Event.isZipEntry]⟩
        have : addSourceEntries env (f :: t) s = addSourceEntries env t (s.emit (.addedZipEntry f)) := by
          simp [addSourceEntries, List.foldl_cons, h1, h2]
        rw [this, hd]
        simp [Sim.emit]

theorem addDependencyEntries_spec (files : List String) (s : Sim) :
    ∃ d, addDependencyEntries files s = { s with trace := s.trace ++ d } ∧
      d.all Event.isZipEntry = true := by
  induction files generalizing s with
  | nil =>
    refine ⟨[], ?_, rfl⟩
    simp [addDependencyEntries]
  | cons f t ih =>
    by_cases h2 : isExcludedFile f
    · obtain ⟨d, hd, ha⟩ := ih s
      exact ⟨d, by simpa [addDependencyEntries, List.foldl_cons, h2] using hd, ha⟩
    · obtain ⟨d, hd, ha⟩ := ih (s.emit (.addedZipEntry f))
      refine ⟨Event.addedZipEntry f :: d, ?_, by simp [ha, Event.isZipEntry]⟩
      have : addDependencyEntries (f :: t) s = addDependencyEntries t (s.emit (.addedZipEntry f)) := by
        simp [addDependencyEntries, List.foldl_cons, h2]
      rw [this, hd]
      simp [Sim.emit]

theorem addSourceEntries_checkCount (env : Env) (files : List String) (s : Sim) :
    (addSourceEntries env files s).checkCount = s.checkCount := by
  obtain ⟨d, hd, _⟩ := addSourceEntries_spec env files s
  rw [hd]

theorem addDependencyEntries_checkCount (files : List String) (s : Sim) :
    (addDependencyEntries files s).checkCount = s.checkCount := by
  obtain ⟨d, hd, _⟩ := addDependencyEntries_spec files s
  rw [hd]

theorem filter_zipMarker_of_zipEntries {d : List Event} (ha : d.all Event.isZipEntry = true) :
    d.filter zipMarker = [] := by
  rw [List.filter_eq_nil_iff]
  intro e he
  have := (List.all_eq_true.mp ha) e he
  cases e <;> simp_all [Event.isZipEntry, zipMarker]

theorem addSourceEntries_filter (env : Env) (files : List String) (s : Sim) :
    (addSourceEntries env files s).trace.filter zipMarker = s.trace.filter zipMarker := by
  obtain ⟨d, hd, ha⟩ := addSourceEntries_spec env files s
  rw [hd]
  simp [List.filter_append, filter_zipMarker_of_zipEntries ha]

theorem addDependencyEntries_filter (files : List String) (s : Sim) :
    (addDependencyEntries files s).trace.filter zipMarker = s.trace.filter zipMarker := by
  obtain ⟨d, hd, ha⟩ := addDependencyEntries_spec files s
  rw [hd]
  simp [List.filter_append, filter_zipMarker_of_zipEntries ha]

theorem zipCodeTry_run (env : Env) (args : ZipCodeArgs) (s : Sim)
    (h0 : env.cancelled s.checkCount = false)
    (h1 : env.cancelled (s.checkCount + 1) = false)
    (h2 : env.cancelled (s.checkCount + 2) = false) :
    (zipCodeTry env args s).1 = .ok (env.tmpdir ++ "/zipped-code.zip") ∧
    (zipCodeTry env args s).2.trace.filter zipMarker =
      s.trace.filter zipMarker ++
        [Event.cancelCheck false] ++
        (args.modulePath.map Event.sourceWalkDone).toList ++
        [Event.cancelCheck false] ++
        (match args.dependenciesFolder with
         | some df => if env.dirExists df.path then [Event.depWalkDone df.path] else []
         | none => []) ++
        [Event.manifestAdded, Event.cancelCheck false] ++
        (if args.humanInTheLoopFlag then [] else [Event.logFileAdded]) ++
        [Event.wroteZip (env.tmpdir ++ "/zipped-code.zip")] := by
  obtain ⟨df, hil, mp, zm⟩ := args
  cases df with
  | none =>
    cases mp <;> cases hil <;> constructor <;>
      simp [zipCodeTry, throwIfCancelled, Sim.emit, h0, h1, h2,
        addSourceEntries_checkCount, addSourceEntries_filter,
        addDependencyEntries_checkCount, addDependencyEntries_filter,
        List.filter_append, zipMarker]
  | some d =>
    by_cases hex : env.dirExists d.path
    · by_cases hlen : (env.walkFiles d.path true).length > 0
      · cases mp <;> cases hil <;> constructor <;>
          simp [zipCodeTry, throwIfCancelled, Sim.emit, h0, h1, h2, hex, hlen,
            addSourceEntries_checkCount, addSourceEntries_filter,
            addDependencyEntries_checkCount, addDependencyEntries_filter,
            List.filter_append, zipMarker]
      · cases mp <;> cases hil <;> constructor <;>
          simp [zipCodeTry, throwIfCancelled, Sim.emit, h0, h1, h2, hex, hlen,
            addSourceEntries_checkCount, addSourceEntries_filter,
            addDependencyEntries_checkCount, addDependencyEntries_filter,
            List.filter_append, zipMarker]
    · cases mp <;> cases hil <;> constructor <;>
        simp [zipCodeTry, throwIfCancelled, Sim.emit, h0, h1, h2, hex,
          addSourceEntries_checkCount, addSourceEntries_filter,
          addDependencyEntries_checkCount, addDependencyEntries_filter,
          List.filter_append, zipMarker]

/-- C6: once the archive is written, a size above the fixed upload ceiling
makes `zipCode` fail with the dedicated `ZipExceedsSizeLimitError` — an error
kind distinct from any generic zip failure — while a size within the ceiling
makes it succeed, returning the archive path. -/
theorem zipCode_size_ceiling (env : Env) (args : ZipCodeArgs) (s : Sim)
    (h0 : env.cancelled s.checkCount = false)
    (h1 : env.cancelled (s.checkCount + 1) = false)
    (h2 : env.cancelled (s.checkCount + 2) = false) :
    (env.zipWrittenSize > uploadZipSizeLimitInBytes →
      (zipCode env args s).1 = .error .zipExceedsSizeLimit ∧
      ∀ m, (zipCode env args s).1 ≠ .error (.genericError m)) ∧
    (env.zipWrittenSize ≤ uploadZipSizeLimitInBytes →
      (zipCode env args s).1 = .ok (env.tmpdir ++ "/zipped-code.zip")) := by
  have hrun := (zipCodeTry_run env args s h0 h1 h2).1
  rcases heq : zipCodeTry env args s with ⟨r, s2⟩
  rw [heq] at hrun
  subst hrun
  unfold zipCode
  rw [heq]
  dsimp only
  constructor
  · intro hgt
    constructor
    · simp [hgt]
    · intro m
      simp [hgt]
  · intro hle
    have hno : ¬ env.zipWrittenSize > uploadZipSizeLimitInBytes := not_lt.mpr hle
    simp [hno]

/-- An environment whose written archive exceeds the upload ceiling. -/
def oversizeEnv : Env := { baseEnv with zipWrittenSize := 2000000001 }

/-- The packaging arguments of a full Maven run: module path, dependencies
folder, plain manifest, not a HIL round. -/
def c7ZipArgs : ZipCodeArgs where
  dependenciesFolder := some { path := "/deps", name := "deps" }
  humanInTheLoopFlag := false
  modulePath := some "/proj"
  zipManifest := .zipM
    { buildTool := .maven, dependenciesRoot := some "dependencies/", hilCapabilities := some ["HIL_TASK"] }

/-- C6 witness: a 2000000001-byte archive is rejected with the dedicated
size-limit error and a 1000-byte archive is packaged successfully. -/
theorem zipCode_size_ceiling_witness :
    ((zipCode oversizeEnv c7ZipArgs initialSim).1 = .error .zipExceedsSizeLimit ∧
      ∀ m, (zipCode oversizeEnv c7ZipArgs initialSim).1 ≠ .error (.genericError m)) ∧
    (zipCode baseEnv c7ZipArgs initialSim).1 = .ok ("/tmp" ++ "/zipped-code.zip") :=
  ⟨(zipCode_size_ceiling oversizeEnv c7ZipArgs initialSim rfl rfl rfl).1 (by decide),
   (zipCode_size_ceiling baseEnv c7ZipArgs initialSim rfl rfl rfl).2 (by decide)⟩

/-- C7 counterexample: in a full packaging run (module path and existing
dependencies folder present, no cancellation), the cancellation flag is read
exactly three times, not four: there is no separate check between the
dependency-tree walk and the manifest write. -/
theorem zipCode_three_checks_counterexample :
    countEvents Event.isCancelCheck (zipCode baseEnv c7ZipArgs initialSim).2.trace = 3 ∧
    ¬ countEvents Event.isCancelCheck (zipCode baseEnv c7ZipArgs initialSim).2.trace = 4 :=
  ⟨by decide, by decide⟩

theorem zipCode_filter_eq_try (env : Env) (args : ZipCodeArgs) (s : Sim) :
    (zipCode env args s).2.trace.filter zipMarker =
      (zipCodeTry env args s).2.trace.filter zipMarker := by
  unfold zipCode
  rcases heq : zipCodeTry env args s with ⟨r, s2⟩
  cases r with
  | error e => rfl
  | ok tempFilePath =>
    dsimp only
    split
    · simp [Sim.emit, List.filter_append, zipMarker]
    · rfl

/-- C7 amended: during `zipCode` the cancellation flag is consulted at exactly
three points — before starting, after the source-tree walk, and after the
manifest is written (this same check is also the first one after the
dependency-tree walk; there is no separate check between the two) — and at
each point a set flag stops the run: the stopped error is raised (wrapped in
the generic zip-failure error by the surrounding `catch`) and no further
archive work is performed. -/
theorem zipCode_cancellation_protocol :
    (∀ (env : Env) (args : ZipCodeArgs) (s : Sim),
      env.cancelled s.checkCount = false →
      env.cancelled (s.checkCount + 1) = false →
      env.cancelled (s.checkCount + 2) = false →
      (zipCode env args s).2.trace.filter zipMarker =
        s.trace.filter zipMarker ++
          [Event.cancelCheck false] ++
          (args.modulePath.map Event.sourceWalkDone).toList ++
          [Event.cancelCheck false] ++
          (match args.dependenciesFolder with
           | some df => if env.dirExists df.path then [Event.depWalkDone df.path] else []
           | none => []) ++
          [Event.manifestAdded, Event.cancelCheck false] ++
          (if args.humanInTheLoopFlag then [] else [Event.logFileAdded]) ++
          [Event.wroteZip (env.tmpdir ++ "/zipped-code.zip")]) ∧
    (∀ (env : Env) (args : ZipCodeArgs) (s : Sim),
      env.cancelled s.checkCount = true →
      (zipCode env args s).1 =
        .error (.genericError ("Failed to zip project due to: " ++
          GErr.message .transformByQStopped)) ∧
      (zipCode env args s).2.trace.filter zipMarker =
        s.trace.filter zipMarker ++ [Event.cancelCheck true]) ∧
    (∀ (env : Env) (args : ZipCodeArgs) (s : Sim),
      env.cancelled s.checkCount = false →
      env.cancelled (s.checkCount + 1) = true →
      (zipCode env args s).1 =
        .error (.genericError ("Failed to zip project due to: " ++
          GErr.message .transformByQStopped)) ∧
      (zipCode env args s).2.trace.filter zipMarker =
        s.trace.filter zipMarker ++
          [Event.cancelCheck false] ++
          (args.modulePath.map Event.sourceWalkDone).toList ++
          [Event.cancelCheck true]) ∧
    (∀ (env : Env) (args : ZipCodeArgs) (s : Sim),
      env.cancelled s.checkCount = false →
      env.cancelled (s.checkCount + 1) = false →
      env.cancelled (s.checkCount + 2) = true →
      (zipCode env args s).1 =
        .error (.genericError ("Failed to zip project due to: " ++
          GErr.message .transformByQStopped)) ∧
      (zipCode env args s).2.trace.filter zipMarker =
        s.trace.filter zipMarker ++
          [Event.cancelCheck false] ++
          (args.modulePath.map Event.sourceWalkDone).toList ++
          [Event.cancelCheck false] ++
          (match args.dependenciesFolder with
           | some df => if env.dirExists df.path then [Event.depWalkDone df.path] else []
           | none => []) ++
          [Event.manifestAdded, Event.cancelCheck true]) := by
  refine ⟨?_, ?_, ?_, ?_⟩
  · intro env args s h0 h1 h2
    rw [zipCode_filter_eq_try]
    exact (zipCodeTry_run env args s h0 h1 h2).2
  · intro env args s hc0
    constructor <;>
      simp [zipCode, zipCodeTry, throwIfCancelled, hc0, Sim.emit, GErr.message,
        List.filter_append, zipMarker]
  · intro env args s h0 hc1
    obtain ⟨df, hil, mp, zm⟩ := args
    cases mp <;>
      constructor <;>
        simp [zipCode, zipCodeTry, throwIfCancelled, h0, hc1, Sim.emit, GErr.message,
          addSourceEntries_checkCount, addSourceEntries_filter,
          List.filter_append, zipMarker]
  · intro env args s h0 h1 hc2
    obtain ⟨df, hil, mp, zm⟩ := args
    cases df with
    | none =>
      cases mp <;>
        constructor <;>
          simp [zipCode, zipCodeTry, throwIfCancelled, h0, h1, hc2, Sim.emit, GErr.message,
            addSourceEntries_checkCount, addSourceEntries_filter,
            addDependencyEntries_checkCount, addDependencyEntries_filter,
            List.filter_append, zipMarker]
    | some d =>
      by_cases hex : env.dirExists d.path
      · by_cases hlen : (env.walkFiles d.path true).length > 0
        · cases mp <;>
            constructor <;>
              simp [zipCode, zipCodeTry, throwIfCancelled, h0, h1, hc2, hex, hlen, Sim.emit,
                GErr.message, addSourceEntries_checkCount, addSourceEntries_filter,
                addDependencyEntries_checkCount, addDependencyEntries_filter,
                List.filter_append, zipMarker]
        · cases mp <;>
            constructor <;>
              simp [zipCode, zipCodeTry, throwIfCancelled, h0, h1, hc2, hex, hlen, Sim.emit,
                GErr.message, addSourceEntries_checkCount, addSourceEntries_filter,
                addDependencyEntries_checkCount, addDependencyEntries_filter,
                List.filter_append, zipMarker]
      · cases mp <;>
          constructor <;>
            simp [zipCode, zipCodeTry, throwIfCancelled, h0, h1, hc2, hex, Sim.emit,
              GErr.message, addSourceEntries_checkCount, addSourceEntries_filter,
              addDependencyEntries_checkCount, addDependencyEntries_filter,
              List.filter_append, zipMarker]

/-- C7 amended witness: the three-check pattern of a full run, and the abort
behavior when the flag turns on right before the first, second and third
check. -/
theorem zipCode_cancellation_protocol_witness :
    ((zipCode baseEnv c7ZipArgs initialSim).2.trace.filter zipMarker =
      [Event.cancelCheck false, Event.sourceWalkDone "/proj", Event.cancelCheck false,
       Event.depWalkDone "/deps", Event.manifestAdded, Event.cancelCheck false,
       Event.logFileAdded, Event.wroteZip "/tmp/zipped-code.zip"]) ∧
    ((zipCode { baseEnv with cancelled := fun _ => true } c7ZipArgs initialSim).1 =
      .error (.genericError ("Failed to zip project due to: " ++
        GErr.message .transformByQStopped))) ∧
    ((zipCode { baseEnv with cancelled := fun n => n ≥ 1 } c7ZipArgs initialSim).2.trace.filter
        zipMarker =
      [Event.cancelCheck false, Event.sourceWalkDone "/proj", Event.cancelCheck true]) ∧
    ((zipCode { baseEnv with cancelled := fun n => n ≥ 2 } c7ZipArgs initialSim).2.trace.filter
        zipMarker =
      [Event.cancelCheck false, Event.sourceWalkDone "/proj", Event.cancelCheck false,
       Event.depWalkDone "/deps", Event.manifestAdded, Event.cancelCheck true]) := by
  refine ⟨?_, ?_, ?_, ?_⟩
  · have := zipCode_cancellation_protocol.1 baseEnv c7ZipArgs initialSim rfl rfl rfl
    simpa using this
  · exact (zipCode_cancellation_protocol.2.1 { baseEnv with cancelled := fun _ => true }
      c7ZipArgs initialSim rfl).1
  · have := (zipCode_cancellation_protocol.2.2.1 { baseEnv with cancelled := fun n => n ≥ 1 }
      c7ZipArgs initialSim (by decide) (by decide)).2
    simpa using this
  · have := (zipCode_cancellation_protocol.2.2.2 { baseEnv with cancelled := fun n => n ≥ 2 }
      c7ZipArgs initialSim (by decide) (by decide) (by decide)).2
    simpa using this

theorem throwIfCancelled_false (env : Env) (s : Sim) (h : env.cancelled s.checkCount = false) :
    throwIfCancelled env s =
      (.ok (), Sim.emit { s with checkCount := s.checkCount + 1 } (.cancelCheck false)) := by
  simp [throwIfCancelled, h]

theorem throwIfCancelled_ok_inv (env : Env) {s s' : Sim} {u : Unit}
    (h : throwIfCancelled env s = (.ok u, s')) :
    env.cancelled s.checkCount = false ∧
      s' = Sim.emit { s with checkCount := s.checkCount + 1 } (.cancelCheck false) := by
  by_cases hc : env.cancelled s.checkCount
  · simp [throwIfCancelled, hc] at h
  · simp only [throwIfCancelled, hc] at h
    simp at h
    exact ⟨by simp [hc], h.symm⟩

theorem processAwaiting_fst_ok (env : Env) (jid : String) (s : Sim)
    (hcan : ∀ n, env.cancelled n = false)
    (hplan : ∀ n, findDownloadArtifactStep (env.planSteps n) = none) :
    (processAwaitingClientActionStatus env jid s).1 = .ok () := by
  simp [processAwaitingClientActionStatus, throwIfCancelled, hcan,
    getClientInstructionArtifactId, getTransformationSteps, hplan]

theorem processAwaiting_ok_eq (env : Env) {jid : String} {s s' : Sim} {r : Except GErr Unit}
    (hcan : ∀ n, env.cancelled n = false)
    (hplan : ∀ n, findDownloadArtifactStep (env.planSteps n) = none)
    (h : processAwaitingClientActionStatus env jid s = (r, s')) : r = .ok () := by
  have h1 := processAwaiting_fst_ok env jid s hcan hplan
  rw [h] at h1
  exact h1

theorem pollIterationTail_fst (env : Env) (response : GetTransformationResponse)
    (timer : Nat) (s : Sim)
    (hfail : failureStates.contains response.status = false)
    (hpause : pausedStates.contains response.status = false) :
    (pollIterationTail env response timer s).1 =
      if timer + env.pollingIntervalSeconds > env.timeoutSeconds then
        .error (.genericError "Job timed out")
      else .ok none := by
  unfold pollIterationTail
  simp only [hpause, hfail, Bool.false_eq_true, if_false]
  split <;> rfl

theorem pollIteration_fst (env : Env) (jobId : String) (validStates : List String)
    (timer : Nat) (s : Sim)
    (hcan : ∀ n, env.cancelled n = false)
    (hplan : ∀ n, findDownloadArtifactStep (env.planSteps n) = none)
    (hval : ∀ n, validStates.contains (env.responses n).status = false)
    (hfail : ∀ n, failureStates.contains (env.responses n).status = false)
    (hpause : ∀ n, pausedStates.contains (env.responses n).status = false) :
    (pollIteration env jobId validStates timer s).1 =
      if timer + env.pollingIntervalSeconds > env.timeoutSeconds then
        .error (.genericError "Job timed out")
      else .ok none := by
  unfold pollIteration
  rw [throwIfCancelled_false env s (hcan _)]
  dsimp only
  simp only [hval, Bool.false_eq_true, if_false]
  split
  · split
    case h_1 e s2 heq =>
      have := processAwaiting_ok_eq env hcan hplan heq
      simp at this
    case h_2 u s2 heq =>
      exact pollIterationTail_fst env _ timer s2 (hfail _) (hpause _)
  · exact pollIterationTail_fst env _ timer _ (hfail _) (hpause _)

/-- C3: for every status sequence whose statuses never belong to the
caller-specified valid states, the failure states or the paused states —
with the job not cancelled and no pending client-action artifact in the plan —
`pollTransformationJob` raises the `Job timed out` error once the accumulated
polling time exceeds the fixed elapsed-time budget: it neither loops forever
nor stops silently. -/
theorem pollTransformationJob_times_out (env : Env) (jobId : String)
    (validStates : List String) (s : Sim)
    (hI : 0 < env.pollingIntervalSeconds)
    (hcan : ∀ n, env.cancelled n = false)
    (hplan : ∀ n, findDownloadArtifactStep (env.planSteps n) = none)
    (hval : ∀ n, validStates.contains (env.responses n).status = false)
    (hfail : ∀ n, failureStates.contains (env.responses n).status = false)
    (hpause : ∀ n, pausedStates.contains (env.responses n).status = false) :
    (pollTransformationJob env jobId validStates s).1 =
      .error (.genericError "Job timed out") := by
  have key : ∀ fuel timer s', timer ≤ env.timeoutSeconds →
      env.timeoutSeconds < timer + fuel * env.pollingIntervalSeconds →
      (pollLoop env jobId validStates fuel timer s').1 =
        .error (.genericError "Job timed out") := by
    intro fuel
    induction fuel with
    | zero =>
      intro timer s' hle hlt
      omega
    | succ f ih =>
      intro timer s' hle hlt
      unfold pollLoop
      rcases heq : pollIteration env jobId validStates timer s' with ⟨r, s''⟩
      have hfst := pollIteration_fst env jobId validStates timer s' hcan hplan hval hfail hpause
      rw [heq] at hfst
      dsimp only at hfst
      by_cases htime : timer + env.pollingIntervalSeconds > env.timeoutSeconds
      · rw [if_pos htime] at hfst
        subst hfst
        simp
      · rw [if_neg htime] at hfst
        subst hfst
        dsimp only
        refine ih (timer + env.pollingIntervalSeconds) s'' (by omega) ?_
        rw [Nat.succ_mul] at hlt
        omega
  unfold pollTransformationJob
  refine key (env.timeoutSeconds + 2) 0 s (Nat.zero_le _) ?_
  have h2 : (env.timeoutSeconds + 2) * 1 ≤
      (env.timeoutSeconds + 2) * env.pollingIntervalSeconds :=
    Nat.mul_le_mul_left _ hI
  omega

/-- C3 witness: a job stuck in `SUBMITTED` against a two-second budget and a
one-second interval raises `Job timed out`. -/
theorem pollTransformationJob_times_out_witness :
    (pollTransformationJob c3wEnv "job-1" ["COMPLETED"] initialSim).1 =
      .error (.genericError "Job timed out") :=
  pollTransformationJob_times_out c3wEnv "job-1" ["COMPLETED"] initialSim
    (by decide) (fun _ => rfl) (fun _ => rfl) (fun _ => rfl) (fun _ => rfl) (fun _ => rfl)

theorem setJobFailureMessages_trace (m : String) (s : Sim) :
    (setJobFailureMessages m s).trace = s.trace := by
  unfold setJobFailureMessages
  split
  · rfl
  · split <;> rfl

theorem setJobFailureMessages_waiting (m : String) (s : Sim) :
    (setJobFailureMessages m s).waitingForClientSideBuildAuthorization =
      s.waitingForClientSideBuildAuthorization := by
  unfold setJobFailureMessages
  split
  · rfl
  · split <;> rfl

theorem recordStatusObservation_waiting (response : GetTransformationResponse) (s : Sim) :
    (recordStatusObservation response s).waitingForClientSideBuildAuthorization =
      s.waitingForClientSideBuildAuthorization := by
  unfold recordStatusObservation
  dsimp only
  split <;> split <;> split <;> simp [setJobFailureMessages_waiting, Sim.emit]

theorem recordStatusObservation_counts (response : GetTransformationResponse) (s : Sim)
    (p : Event → Bool) (hobs : ∀ st, p (.observedStatus st) = false) :
    countEvents p (recordStatusObservation response s).trace =
      countEvents p s.trace +
        (if response.status ≠ s.polledJobStatus then
          (if p (.emittedStatusChange s.polledJobStatus response.status) then 1 else 0)
         else 0) := by
  unfold recordStatusObservation
  dsimp only
  split <;> split <;> split <;>
    simp_all [setJobFailureMessages_trace, countEvents_append, countEvents,
      List.filter_cons, Sim.emit, hobs] <;>
    split <;> simp

theorem recordStatusObservation_no_emit (response : GetTransformationResponse) (s : Sim)
    (hsame : response.status = s.polledJobStatus) :
    countEvents Event.isStatusChangeEmission (recordStatusObservation response s).trace =
      countEvents Event.isStatusChangeEmission s.trace := by
  rw [recordStatusObservation_counts response s _ (fun _ => rfl)]
  simp [hsame]

theorem recordStatusObservation_invoke (response : GetTransformationResponse) (s : Sim) :
    countEvents Event.isSubProtocolInvocation (recordStatusObservation response s).trace =
      countEvents Event.isSubProtocolInvocation s.trace := by
  rw [recordStatusObservation_counts response s _ (fun _ => rfl)]
  split <;> simp [Event.isSubProtocolInvocation]

theorem pollIterationTail_counts (env : Env) (response : GetTransformationResponse)
    (timer : Nat) (s : Sim) (p : Event → Bool)
    (hslept : ∀ n, p (.slept n) = false) :
    countEvents p (pollIterationTail env response timer s).2.trace =
      countEvents p s.trace := by
  unfold pollIterationTail
  split
  · rfl
  · split
    · rfl
    · split <;> simp [countEvents_emit, hslept]

theorem countEvents_singleton (p : Event → Bool) (e : Event) :
    countEvents p [e] = if p e then 1 else 0 := by
  by_cases hp : p e <;> simp [countEvents, hp]

theorem countEvents_cons (p : Event → Bool) (e : Event) (t : List Event) :
    countEvents p (e :: t) = (if p e then 1 else 0) + countEvents p t := by
  by_cases hp : p e <;> simp [countEvents, hp, List.filter_cons, Nat.add_comm]

/-- The status sequence observing the plan-generated status `TRANSFORMING`
twice before completing. -/
def c2Env : Env :=
  { baseEnv with
      responses := fun n =>
        { status := ["TRANSFORMING", "TRANSFORMING", "COMPLETED"].getD n "COMPLETED"
          reason := none
          requestId := "r" } }

/-- C2 counterexample: polling the sequence
`[TRANSFORMING, TRANSFORMING, COMPLETED]` invokes the AWAITING_CLIENT_ACTION
sub-protocol twice although the plan-generated status `TRANSFORMING` is a
single distinct status observed twice — the sub-protocol is re-invoked on a
subsequent poll iteration that observes the same plan-generated status. -/
theorem pollTransformationJob_reinvocation_counterexample :
    countEvents Event.isSubProtocolInvocation
        (pollTransformationJob c2Env "job-1" ["COMPLETED"] initialSim).2.trace = 2 ∧
    countEvents (fun e => e == Event.observedStatus "TRANSFORMING")
        (pollTransformationJob c2Env "job-1" ["COMPLETED"] initialSim).2.trace = 2 ∧
    validStatesForPlanGenerated.contains "TRANSFORMING" = true :=
  ⟨by decide, by decide, by decide⟩

/-- C2 amended: re-observing a status equal to the previously observed one
never re-emits a status-change event; but the AWAITING_CLIENT_ACTION
sub-protocol is invoked exactly once in every iteration that observes a
non-valid plan-generated status while no build authorization is pending
(even when that status equals the previously observed one), and is never
invoked while build authorization is pending. -/
theorem pollIteration_idempotence_facts :
    (∀ (env : Env) (jobId : String) (validStates : List String) (timer : Nat) (s : Sim),
      (env.responses s.fetchCount).status = s.polledJobStatus →
      countEvents Event.isStatusChangeEmission
          (pollIteration env jobId validStates timer s).2.trace =
        countEvents Event.isStatusChangeEmission s.trace) ∧
    (∀ (env : Env) (jobId : String) (validStates : List String) (timer : Nat) (s : Sim),
      env.cancelled s.checkCount = false →
      validStates.contains (env.responses s.fetchCount).status = false →
      validStatesForPlanGenerated.contains (env.responses s.fetchCount).status = true →
      s.waitingForClientSideBuildAuthorization = false →
      countEvents Event.isSubProtocolInvocation
          (pollIteration env jobId validStates timer s).2.trace =
        countEvents Event.isSubProtocolInvocation s.trace + 1) ∧
    (∀ (env : Env) (jobId : String) (validStates : List String) (timer : Nat) (s : Sim),
      s.waitingForClientSideBuildAuthorization = true →
      countEvents Event.isSubProtocolInvocation
          (pollIteration env jobId validStates timer s).2.trace =
        countEvents Event.isSubProtocolInvocation s.trace) := by
  refine ⟨?_, ?_, ?_⟩
  · intro env jobId validStates timer s hsame
    unfold pollIteration
    split
    case h_1 r s1 heq =>
      exact (throwIfCancelled_ext env heq).count_eq _
        (fun e he => by cases e <;> simp_all [buildQuiet, Event.isStatusChangeEmission,
          Event.isSubProtocolInvocation, Event.isSpawn, Event.isStopTransformCall])
    case h_2 u s1 heq =>
      obtain ⟨hc, hs1⟩ := throwIfCancelled_ok_inv env heq
      subst hs1
      dsimp only
      split
      · simp [recordStatusObservation_counts, countEvents_emit, Sim.emit, hsame,
            Event.isStatusChangeEmission, countEvents_append, countEvents_singleton, countEvents_cons, countEvents_nil]
      · split
        · split
          case h_1 e s2 heq2 =>
            have h3 := (processAwaitingClientActionStatus_ext env heq2).count_eq
              Event.isStatusChangeEmission
              (fun e he => by cases e <;> simp_all [pollQuiet, Event.isStatusChangeEmission,
                Event.isSubProtocolInvocation])
            rw [h3]
            simp [recordStatusObservation_counts, countEvents_emit, Sim.emit, hsame,
            Event.isStatusChangeEmission, countEvents_append, countEvents_singleton, countEvents_cons, countEvents_nil]
          case h_2 u2 s2 heq2 =>
            have h3 := (processAwaitingClientActionStatus_ext env heq2).count_eq
              Event.isStatusChangeEmission
              (fun e he => by cases e <;> simp_all [pollQuiet, Event.isStatusChangeEmission,
                Event.isSubProtocolInvocation])
            rw [pollIterationTail_counts _ _ _ _ _ (fun _ => rfl), h3]
            simp [recordStatusObservation_counts, countEvents_emit, Sim.emit, hsame,
            Event.isStatusChangeEmission, countEvents_append, countEvents_singleton, countEvents_cons, countEvents_nil]
        · rw [pollIterationTail_counts _ _ _ _ _ (fun _ => rfl)]
          simp [recordStatusObservation_counts, countEvents_emit, Sim.emit, hsame,
            Event.isStatusChangeEmission, countEvents_append, countEvents_singleton, countEvents_cons, countEvents_nil]
  · intro env jobId validStates timer s hc hvalid hplanG hwait
    unfold pollIteration
    rw [throwIfCancelled_false env s hc]
    dsimp only [Sim.emit]
    simp only [hvalid, Bool.false_eq_true, if_false]
    rw [if_pos (by simp [recordStatusObservation_waiting, hwait, Sim.emit]; simpa using hplanG)]
    split
    case h_1 e s2 heq2 =>
      have h3 := (processAwaitingClientActionStatus_ext env heq2).count_eq
        Event.isSubProtocolInvocation
        (fun e he => by cases e <;> simp_all [pollQuiet, Event.isStatusChangeEmission,
          Event.isSubProtocolInvocation])
      rw [h3]
      simp [recordStatusObservation_invoke, countEvents_emit, Sim.emit,
        Event.isSubProtocolInvocation, countEvents_append, countEvents_singleton, countEvents_cons, countEvents_nil]
    case h_2 u2 s2 heq2 =>
      have h3 := (processAwaitingClientActionStatus_ext env heq2).count_eq
        Event.isSubProtocolInvocation
        (fun e he => by cases e <;> simp_all [pollQuiet, Event.isStatusChangeEmission,
          Event.isSubProtocolInvocation])
      rw [pollIterationTail_counts _ _ _ _ _ (fun _ => rfl), h3]
      simp [recordStatusObservation_invoke, countEvents_emit, Sim.emit,
        Event.isSubProtocolInvocation, countEvents_append, countEvents_singleton, countEvents_cons, countEvents_nil]
  · intro env jobId validStates timer s hwait
    unfold pollIteration
    split
    case h_1 r s1 heq =>
      exact (throwIfCancelled_ext env heq).count_eq _
        (fun e he => by cases e <;> simp_all [buildQuiet, Event.isStatusChangeEmission,
          Event.isSubProtocolInvocation, Event.isSpawn, Event.isStopTransformCall])
    case h_2 u s1 heq =>
      obtain ⟨hc, hs1⟩ := throwIfCancelled_ok_inv env heq
      subst hs1
      dsimp only
      split
      · simp [recordStatusObservation_invoke, countEvents_emit, Sim.emit,
          Event.isSubProtocolInvocation, countEvents_append, countEvents_singleton, countEvents_cons, countEvents_nil]
      · rw [if_neg (by simp [recordStatusObservation_waiting, hwait, Sim.emit])]
        rw [pollIterationTail_counts _ _ _ _ _ (fun _ => rfl)]
        simp [recordStatusObservation_invoke, countEvents_emit, Sim.emit,
          Event.isSubProtocolInvocation, countEvents_append, countEvents_singleton, countEvents_cons, countEvents_nil]

/-- Witness for the C2 amended theorem: each conjunct applied at concrete
inputs built from `c2Env` and `initialSim`. -/
theorem pollIteration_idempotence_facts_witness :
    countEvents Event.isStatusChangeEmission
        (pollIteration c2Env "job-1" ["COMPLETED"] 0
          { initialSim with polledJobStatus := "TRANSFORMING" }).2.trace =
      countEvents Event.isStatusChangeEmission
        ({ initialSim with polledJobStatus := "TRANSFORMING" } : Sim).trace ∧
    countEvents Event.isSubProtocolInvocation
        (pollIteration c2Env "job-1" ["COMPLETED"] 0 initialSim).2.trace =
      countEvents Event.isSubProtocolInvocation initialSim.trace + 1 ∧
    countEvents Event.isSubProtocolInvocation
        (pollIteration c2Env "job-1" ["COMPLETED"] 0
          { initialSim with waitingForClientSideBuildAuthorization := true }).2.trace =
      countEvents Event.isSubProtocolInvocation
        ({ initialSim with waitingForClientSideBuildAuthorization := true } : Sim).trace :=
  ⟨pollIteration_idempotence_facts.1 c2Env "job-1" ["COMPLETED"] 0
      { initialSim with polledJobStatus := "TRANSFORMING" } (by decide),
   pollIteration_idempotence_facts.2.1 c2Env "job-1" ["COMPLETED"] 0 initialSim
      (by decide) (by decide) (by decide) (by decide),
   pollIteration_idempotence_facts.2.2 c2Env "job-1" ["COMPLETED"] 0
      { initialSim with waitingForClientSideBuildAuthorization := true } (by decide)⟩

theorem buildQuiet_not_spawn : ∀ e, buildQuiet e = true → Event.isSpawn e = false := by
  intro e
  cases e <;> simp [buildQuiet, Event.isSpawn, Event.isStatusChangeEmission,
    Event.isSubProtocolInvocation, Event.isStopTransformCall]

theorem buildQuiet_not_stopCall : ∀ e, buildQuiet e = true → Event.isStopTransformCall e = false := by
  intro e
  cases e <;> simp [buildQuiet, Event.isSpawn, Event.isStatusChangeEmission,
    Event.isSubProtocolInvocation, Event.isStopTransformCall]

/-- `stopTransformByQ` adds exactly one `calledStopTransform` event (plus
`buildQuiet` events) to the trace, for any counting predicate that ignores
`buildQuiet` events. -/
theorem stopTransformByQ_count (env : Env) (jobId : String) (s : Sim) (p : Event → Bool)
    (hq : ∀ e, buildQuiet e = true → p e = false) :
    countEvents p (stopTransformByQ env jobId s).trace =
      countEvents p s.trace + (if p Event.calledStopTransform then 1 else 0) := by
  unfold stopTransformByQ
  dsimp only
  have h := (stopJob_extends env jobId (s.emit Event.calledStopTransform)).count_eq p hq
  have h2 : p Event.ranPostJobCleanup = false := hq _ (by rfl)
  rw [countEvents_emit, h, countEvents_emit, h2]
  simp

/-- `runClientSideBuildAfterAuth` adds exactly one `spawnedBuild` event (plus
`buildQuiet` events) to the trace, for any counting predicate that ignores
`buildQuiet` events. -/
theorem runClientSideBuildAfterAuth_count (env : Env) (caid bc : String)
    (args : List String) (s : Sim) (p : Event → Bool)
    (hq : ∀ e, buildQuiet e = true → p e = false) :
    countEvents p (runClientSideBuildAfterAuth env caid bc args s).2.trace =
      countEvents p s.trace + (if p (Event.spawnedBuild bc) then 1 else 0) := by
  have hman : ∀ f, p (Event.wroteManifestFile f) = false := fun f => hq _ (by rfl)
  have hzip : ∀ f, p (Event.wroteZip f) = false := fun f => hq _ (by rfl)
  unfold runClientSideBuildAfterAuth updateManifestFile
  dsimp only
  by_cases hnz : (env.spawnResult s.spawnCount).status ≠ some 0
  · rw [if_pos hnz]
    split
    next code heq =>
      split
      next e s2 hequ =>
        dsimp only
        rw [(uploadPayload_ext env _ _ hequ).count_eq p hq]
        rw [countEvents_emit, countEvents_emit,
          (writeAndShowBuildLogs_extends env caid _ _).count_eq p hq]
        simp [Sim.emit, countEvents_append, countEvents_cons, countEvents_nil, hman, hzip]
      next u s2 hequ =>
        split
        next e2 s3 heqr =>
          dsimp only
          rw [(resumeTransformationJob_ext env _ _ heqr).count_eq p hq]
          rw [(uploadPayload_ext env _ _ hequ).count_eq p hq]
          rw [countEvents_emit, countEvents_emit,
            (writeAndShowBuildLogs_extends env caid _ _).count_eq p hq]
          simp [Sim.emit, countEvents_append, countEvents_cons, countEvents_nil, hman, hzip]
        next u2 s3 heqr =>
          dsimp only
          rw [(resumeTransformationJob_ext env _ _ heqr).count_eq p hq]
          rw [(uploadPayload_ext env _ _ hequ).count_eq p hq]
          rw [countEvents_emit, countEvents_emit,
            (writeAndShowBuildLogs_extends env caid _ _).count_eq p hq]
          simp [Sim.emit, countEvents_append, countEvents_cons, countEvents_nil, hman, hzip]
    next heq =>
      dsimp only
      rw [(writeAndShowBuildLogs_extends env caid _ _).count_eq p hq]
      simp [Sim.emit, countEvents_append, countEvents_cons, countEvents_nil]
  · rw [if_neg hnz]
    split
    next code heq =>
      split
      next e s2 hequ =>
        dsimp only
        rw [(uploadPayload_ext env _ _ hequ).count_eq p hq]
        rw [countEvents_emit, countEvents_emit,
          (writeAndShowBuildLogs_extends env caid _ _).count_eq p hq]
        simp [Sim.emit, countEvents_append, countEvents_cons, countEvents_nil, hman, hzip]
      next u s2 hequ =>
        split
        next e2 s3 heqr =>
          dsimp only
          rw [(resumeTransformationJob_ext env _ _ heqr).count_eq p hq]
          rw [(uploadPayload_ext env _ _ hequ).count_eq p hq]
          rw [countEvents_emit, countEvents_emit,
            (writeAndShowBuildLogs_extends env caid _ _).count_eq p hq]
          simp [Sim.emit, countEvents_append, countEvents_cons, countEvents_nil, hman, hzip]
        next u2 s3 heqr =>
          dsimp only
          rw [(resumeTransformationJob_ext env _ _ heqr).count_eq p hq]
          rw [(uploadPayload_ext env _ _ hequ).count_eq p hq]
          rw [countEvents_emit, countEvents_emit,
            (writeAndShowBuildLogs_extends env caid _ _).count_eq p hq]
          simp [Sim.emit, countEvents_append, countEvents_cons, countEvents_nil, hman, hzip]
    next heq =>
      dsimp only
      rw [(writeAndShowBuildLogs_extends env caid _ _).count_eq p hq]
      simp [Sim.emit, countEvents_append, countEvents_cons, countEvents_nil]

theorem runClientSideBuildAfterAuth_count_ext (env : Env) {caid bc : String}
    {args : List String} {s : Sim} {r : Except GErr Unit} {s' : Sim}
    (h : runClientSideBuildAfterAuth env caid bc args s = (r, s'))
    (p : Event → Bool) (hq : ∀ e, buildQuiet e = true → p e = false) :
    countEvents p s'.trace =
      countEvents p s.trace + (if p (Event.spawnedBuild bc) then 1 else 0) := by
  have h0 := runClientSideBuildAfterAuth_count env caid bc args s p hq
  rw [h] at h0
  exact h0

/-- C5: in the client-side-build authorization gate of `runClientSideBuild`
(selection `Verify Each Iteration`, no authorization pending), declining the
prompt calls the job-stop operation `stopTransformByQ` exactly once, never
spawns the build subprocess, and raises the fatal wrapped
rejected-verification error; accepting the prompt spawns the build subprocess
exactly once and never calls the job-stop operation. -/
theorem runClientSideBuild_authorization_gate :
    (∀ (env : Env) (mp caid : String) (s : Sim),
      s.clientSideBuildSelection = "Verify Each Iteration" →
      s.waitingForClientSideBuildAuthorization = false →
      env.userChoice s.promptCount = UserChoice.no →
      (runClientSideBuild env mp caid s).1 = Except.error (GErr.genericError
        "Client-side build failed: Cannot perform intermediate client-side build since intermediate verification prompt was rejected") ∧
      countEvents Event.isStopTransformCall (runClientSideBuild env mp caid s).2.trace =
        countEvents Event.isStopTransformCall s.trace + 1 ∧
      countEvents Event.isSpawn (runClientSideBuild env mp caid s).2.trace =
        countEvents Event.isSpawn s.trace) ∧
    (∀ (env : Env) (mp caid : String) (s : Sim),
      s.clientSideBuildSelection = "Verify Each Iteration" →
      s.waitingForClientSideBuildAuthorization = false →
      env.userChoice s.promptCount = UserChoice.yes →
      countEvents Event.isSpawn (runClientSideBuild env mp caid s).2.trace =
        countEvents Event.isSpawn s.trace + 1 ∧
      countEvents Event.isStopTransformCall (runClientSideBuild env mp caid s).2.trace =
        countEvents Event.isStopTransformCall s.trace) := by
  refine ⟨?_, ?_⟩
  · intro env mp caid s hsel hwait hchoice
    unfold runClientSideBuild runClientSideBuildBody
    dsimp only
    simp only [hsel, hwait, hchoice, choiceText, decide_True, Bool.not_false,
      Bool.and_self, beq_self_eq_true, if_true]
    refine ⟨rfl, ?_, ?_⟩
    · rw [stopTransformByQ_count env _ _ Event.isStopTransformCall buildQuiet_not_stopCall]
      simp [Sim.emit, countEvents_append, countEvents_cons, countEvents_nil,
        Event.isStopTransformCall]
    · rw [stopTransformByQ_count env _ _ Event.isSpawn buildQuiet_not_spawn]
      simp [Sim.emit, countEvents_append, countEvents_cons, countEvents_nil, Event.isSpawn]
  · intro env mp caid s hsel hwait hchoice
    unfold runClientSideBuild runClientSideBuildBody
    dsimp only
    simp only [hsel, hwait, hchoice, choiceText, decide_True, Bool.not_false,
      Bool.and_self, beq_self_eq_true, if_true]
    rw [if_neg (by decide : ¬((some "Yes" == some "No") = true)),
      if_neg (by decide : ¬((some "Yes" == (none : Option String)) = true))]
    split
    next e s2 hA =>
      dsimp only
      refine ⟨?_, ?_⟩
      · rw [runClientSideBuildAfterAuth_count_ext env hA Event.isSpawn buildQuiet_not_spawn]
        simp [Sim.emit, countEvents_append, countEvents_cons, countEvents_nil, Event.isSpawn]
      · rw [runClientSideBuildAfterAuth_count_ext env hA Event.isStopTransformCall
          buildQuiet_not_stopCall]
        simp [Sim.emit, countEvents_append, countEvents_cons, countEvents_nil,
          Event.isStopTransformCall]
    next u s2 hA =>
      dsimp only
      refine ⟨?_, ?_⟩
      · rw [runClientSideBuildAfterAuth_count_ext env hA Event.isSpawn buildQuiet_not_spawn]
        simp [Sim.emit, countEvents_append, countEvents_cons, countEvents_nil, Event.isSpawn]
      · rw [runClientSideBuildAfterAuth_count_ext env hA Event.isStopTransformCall
          buildQuiet_not_stopCall]
        simp [Sim.emit, countEvents_append, countEvents_cons, countEvents_nil,
          Event.isStopTransformCall]

/-- The authorization environment in which the user declines the verification
prompt. -/
def c5DeclineEnv : Env :=
  { baseEnv with userChoice := fun _ => UserChoice.no }

/-- A simulation state in which interactive verification
(`Verify Each Iteration`) is configured and no authorization is pending. -/
def c5Sim : Sim :=
  { initialSim with clientSideBuildSelection := "Verify Each Iteration", jobId := "job-9" }

/-- Witness for the C5 theorem: both conjuncts applied to the decline and
accept environments at the interactive-verification state. -/
theorem runClientSideBuild_authorization_gate_witness :
    ((runClientSideBuild c5DeclineEnv "/m" "art-1" c5Sim).1 = Except.error (GErr.genericError
        "Client-side build failed: Cannot perform intermediate client-side build since intermediate verification prompt was rejected") ∧
      countEvents Event.isStopTransformCall
          (runClientSideBuild c5DeclineEnv "/m" "art-1" c5Sim).2.trace =
        countEvents Event.isStopTransformCall c5Sim.trace + 1 ∧
      countEvents Event.isSpawn (runClientSideBuild c5DeclineEnv "/m" "art-1" c5Sim).2.trace =
        countEvents Event.isSpawn c5Sim.trace) ∧
    (countEvents Event.isSpawn (runClientSideBuild baseEnv "/m" "art-1" c5Sim).2.trace =
        countEvents Event.isSpawn c5Sim.trace + 1 ∧
      countEvents Event.isStopTransformCall
          (runClientSideBuild baseEnv "/m" "art-1" c5Sim).2.trace =
        countEvents Event.isStopTransformCall c5Sim.trace) :=
  ⟨runClientSideBuild_authorization_gate.1 c5DeclineEnv "/m" "art-1" c5Sim rfl rfl rfl,
   runClientSideBuild_authorization_gate.2 baseEnv "/m" "art-1" c5Sim rfl rfl rfl⟩
